import Mathlib

/-!
Verification development for the generated-code safety and execution engine
of the repository (pandasai helpers/code_manager.py and
pipelines/smart_datalake_chat/code_execution.py), as a shallow embedding in
Lean 4.  Python statements are modelled by an explicit tree type, the
sanitizer and the retry controller are translated function by function from
the source, stateful attributes are threaded explicitly, and the external
Python runtime services (ast.parse, exec, the re module, astor) are
parameters of the embedding.
-/

/-- Boolean prefix test on character lists, used to model Python's substring
containment operator `in` on strings. -/
def isPrefB : List Char → List Char → Bool
  | [], _ => true
  | _ :: _, [] => false
  | a :: as, b :: bs => a == b && isPrefB as bs

/-- Boolean infix test on character lists. -/
def isSubB (pat : List Char) : List Char → Bool
  | [] => isPrefB pat []
  | c :: rest => isPrefB pat (c :: rest) || isSubB pat rest

/-- Python's `pat in s` substring containment on strings. -/
def substrB (pat s : String) : Bool := isSubB pat.data s.data

/-- Python constant values as they occur in `ast.Constant` nodes
(strings, ints, bools, None). -/
inductive PyConst where
  | s (v : String)
  | i (v : Int)
  | b (v : Bool)
  | noneV
deriving DecidableEq, Repr

/-- Python's `str()` rendering of a constant, as used in f-strings. -/
def pyStr : PyConst → String
  | .s v => v
  | .i v => toString v
  | .b true => "True"
  | .b false => "False"
  | .noneV => "None"

/-- Comparison operators of `ast.Compare` nodes, the keys of
CodeManager._ast_comparator_map. -/
inductive CmpOp where
  | eqOp | notEqOp | ltOp | ltEOp | gtOp | gtEOp | isOp | isNotOp | inOp | notInOp
deriving DecidableEq, Repr

/-- CodeManager._ast_comparator_map: comparator symbol used in extracted
filter predicates. -/
def cmpMapStr : CmpOp → String
  | .eqOp => "="
  | .notEqOp => "!="
  | .ltOp => "<"
  | .ltEOp => "<="
  | .gtOp => ">"
  | .gtEOp => ">="
  | .isOp => "is"
  | .isNotOp => "is not"
  | .inOp => "in"
  | .notInOp => "not in"

/-- Source form of a comparison operator, as astor serializes it. -/
def cmpSrcStr : CmpOp → String
  | .eqOp => "=="
  | .notEqOp => "!="
  | .ltOp => "<"
  | .ltEOp => "<="
  | .gtOp => ">"
  | .gtEOp => ">="
  | .isOp => "is"
  | .isNotOp => "is not"
  | .inOp => "in"
  | .notInOp => "not in"

mutual
/-- Python expressions: the fragment of the `ast` expression nodes the
engine inspects (Name, Constant, Attribute, Call, Subscript, Compare).
Compare nodes carry the line number read by the filter extractor. -/
inductive PyExpr where
  | name (id : String)
  | const (v : PyConst)
  | attrE (value : PyExpr) (attrName : String)
  | call (func : PyExpr) (args : PyExprList)
  | subscript (value : PyExpr) (slice : PyExpr)
  | compare (left : PyExpr) (ops : List CmpOp) (comparators : PyExprList) (lineno : Nat)

/-- Lists of expressions, part of the mutual tree so that recursion over the
tree is structural. -/
inductive PyExprList where
  | nil
  | cons (head : PyExpr) (tail : PyExprList)
end

/-- One `alias` entry of an import statement: `name` optionally bound `as`
asname. -/
structure ImportAlias where
  aname : String
  asname : Option String
deriving DecidableEq, Repr

mutual
/-- Python top-level statements handled by the sanitizer: Import,
ImportFrom, Assign (with its line number), expression statements,
function definitions and `pass`. -/
inductive PyStmt where
  | imprt (names : List ImportAlias)
  | importFrom (module : String) (names : List ImportAlias)
  | assign (targets : List PyExpr) (value : PyExpr) (lineno : Nat)
  | exprStmt (value : PyExpr)
  | functionDef (fname : String) (body : PyStmtList)
  | passStmt

/-- Lists of statements, part of the mutual tree for structural recursion. -/
inductive PyStmtList where
  | nil
  | cons (head : PyStmt) (tail : PyStmtList)
end

/-- Conversion of the embedded statement list to an ordinary list. -/
def stmtsToList : PyStmtList → List PyStmt
  | .nil => []
  | .cons h t => h :: stmtsToList t

mutual
/-- Model of `ast.dump` on expressions: a textual rendering that contains
every identifier, attribute name and constant value of the tree, which is
what CodeManager._is_jailbreak scans for dangerous builtin tokens. -/
def dumpExpr : PyExpr → String
  | .name id => "Name(id=" ++ id ++ ")"
  | .const c => "Constant(value=" ++ pyStr c ++ ")"
  | .attrE v a => "Attribute(value=" ++ dumpExpr v ++ ", attr=" ++ a ++ ")"
  | .call f args => "Call(func=" ++ dumpExpr f ++ ", args=[" ++ dumpExprList args ++ "])"
  | .subscript v i => "Subscript(value=" ++ dumpExpr v ++ ", slice=" ++ dumpExpr i ++ ")"
  | .compare l _ cs n =>
      "Compare(left=" ++ dumpExpr l ++ ", comparators=[" ++ dumpExprList cs
        ++ "], lineno=" ++ toString n ++ ")"

/-- Model of `ast.dump` on expression lists. -/
def dumpExprList : PyExprList → String
  | .nil => ""
  | .cons e .nil => dumpExpr e
  | .cons e rest => dumpExpr e ++ ", " ++ dumpExprList rest
end

/-- Textual rendering of one import alias inside `ast.dump`. -/
def dumpAlias (a : ImportAlias) : String :=
  "alias(name=" ++ a.aname ++ ", asname=" ++ (a.asname.getD "None") ++ ")"

/-- Renders a list of import aliases inside `ast.dump`. -/
def dumpAliases : List ImportAlias → String
  | [] => ""
  | [a] => dumpAlias a
  | a :: rest => dumpAlias a ++ ", " ++ dumpAliases rest

/-- Renders a list of expressions (assignment targets) inside `ast.dump`. -/
def dumpExprs : List PyExpr → String
  | [] => ""
  | [e] => dumpExpr e
  | e :: rest => dumpExpr e ++ ", " ++ dumpExprs rest

mutual
/-- Model of `ast.dump` on statements. -/
def dumpStmt : PyStmt → String
  | .imprt names => "Import(names=[" ++ dumpAliases names ++ "])"
  | .importFrom m names =>
      "ImportFrom(module=" ++ m ++ ", names=[" ++ dumpAliases names ++ "])"
  | .assign tgts v n =>
      "Assign(targets=[" ++ dumpExprs tgts ++ "], value=" ++ dumpExpr v
        ++ ", lineno=" ++ toString n ++ ")"
  | .exprStmt v => "Expr(value=" ++ dumpExpr v ++ ")"
  | .functionDef n body =>
      "FunctionDef(name=" ++ n ++ ", body=[" ++ dumpStmtList body ++ "])"
  | .passStmt => "Pass()"

/-- Model of `ast.dump` on statement lists. -/
def dumpStmtList : PyStmtList → String
  | .nil => ""
  | .cons s .nil => dumpStmt s
  | .cons s rest => dumpStmt s ++ ", " ++ dumpStmtList rest
end

/-- Source literal of a constant, as astor prints it. -/
def constSrc : PyConst → String
  | .s v => "\"" ++ v ++ "\""
  | .i v => toString v
  | .b true => "True"
  | .b false => "False"
  | .noneV => "None"

mutual
/-- Model of `astor.to_source` on expressions: the serialized source form
that CodeManager._is_unsafe scans for denylisted export methods. -/
def srcExpr : PyExpr → String
  | .name id => id
  | .const c => constSrc c
  | .attrE v a => srcExpr v ++ "." ++ a
  | .call f args => srcExpr f ++ "(" ++ srcExprList args ++ ")"
  | .subscript v i => srcExpr v ++ "[" ++ srcExpr i ++ "]"
  | .compare l ops cs _ => srcExpr l ++ srcCompareTail ops cs

/-- Serializes the operator-comparator chain of a Compare node. -/
def srcCompareTail : List CmpOp → PyExprList → String
  | op :: ops, .cons c rest => " " ++ cmpSrcStr op ++ " " ++ srcExpr c ++ srcCompareTail ops rest
  | _, _ => ""

/-- Model of `astor.to_source` on comma-separated expression lists. -/
def srcExprList : PyExprList → String
  | .nil => ""
  | .cons e .nil => srcExpr e
  | .cons e rest => srcExpr e ++ ", " ++ srcExprList rest
end

/-- Serializes a list of assignment targets, joined by ` = `. -/
def srcTargets : List PyExpr → String
  | [] => ""
  | [e] => srcExpr e
  | e :: rest => srcExpr e ++ " = " ++ srcTargets rest

/-- Serializes one import alias in source form. -/
def srcAlias (a : ImportAlias) : String :=
  a.aname ++ (match a.asname with | some x => " as " ++ x | none => "")

/-- Serializes a comma-separated list of import aliases. -/
def srcAliases : List ImportAlias → String
  | [] => ""
  | [a] => srcAlias a
  | a :: rest => srcAlias a ++ ", " ++ srcAliases rest

mutual
/-- Model of `astor.to_source` on statements. -/
def srcStmt : PyStmt → String
  | .imprt names => "import " ++ srcAliases names
  | .importFrom m names => "from " ++ m ++ " " ++ "import " ++ srcAliases names
  | .assign tgts v _ => srcTargets tgts ++ " = " ++ srcExpr v
  | .exprStmt v => srcExpr v
  | .functionDef n body => "def " ++ n ++ "():" ++ srcBody body
  | .passStmt => "pass"

/-- Serializes an indented function body. -/
def srcBody : PyStmtList → String
  | .nil => ""
  | .cons s rest => "\n    " ++ srcStmt s ++ srcBody rest
end

/-- Model of `astor.to_source` on a whole module: the sanitized statements
joined back into one code text (the source joins pretty-printed chunks and
strips). -/
def moduleToSource (body : List PyStmt) : String :=
  String.intercalate "\n" (body.map srcStmt)

/-- Failure kinds of the engine.  BadImportError, MaliciousQueryError,
InvalidConfigError and NoResultFoundError come from pandasai.exceptions
(declared outside src/, modelled as carrying the data the raise sites pass);
syntaxError, valueError, attrError, indexError, nameError and
runtimeFailure model the corresponding Python builtin exceptions raised by
the runtime. -/
inductive PyErr where
  | badImport (library : String)
  | maliciousQuery (unauthorizedTables : List String)
  | invalidConfig (msg : String)
  | noResultFound (msg : String)
  | invalidLLMOutputType (msg : String)
  | syntaxError (msg : String)
  | valueError (msg : String)
  | attrError (msg : String)
  | indexError (msg : String)
  | nameError (msg : String)
  | runtimeFailure (msg : String)
deriving DecidableEq, Repr

/-- Materialized tabular view (a pandas dataframe), opaque to the engine. -/
structure DataTable where
  ident : Nat
deriving DecidableEq, Repr

/-- One extracted filter predicate `(left, comparator, right)`. -/
abbrev Predicate := PyConst × String × PyConst

/-- Data source (connector) as the engine sees it: a name, whether it is an
SQL connector, a credentials key compared by `equals`, the table its
`execute()` materializes, and the pushdown filters applied to it.
`equals`, `set_additional_filters` and `execute` live in the connectors
package outside src/ and are modelled from the spec (identity/name,
`materialize()`, `applyFilters(predicates)`, `equals(other)`). -/
structure DataSource where
  sname : String
  isSqlConnector : Bool
  connectionKey : Nat
  table : DataTable
  additionalFilters : List Predicate
deriving DecidableEq, Repr

/-- Modelled from the spec: the `equals(other)` credential comparison of SQL
connectors (connectors package is not under src/). -/
def dsEquals (a b : DataSource) : Bool :=
  a.connectionKey == b.connectionKey

/-- One recorded extra dependency `{module, name, alias}` appended by
CodeManager._check_imports. -/
structure Dep where
  module : String
  depName : String
  depAlias : String
deriving DecidableEq, Repr

/-- Modelled from the spec: the skills registry (helpers/skills_manager.py is
not under src/): known skill names plus the subset referenced by the current
code unit. -/
structure SkillsManager where
  skills : List String
  usedSkills : List String
deriving DecidableEq, Repr

/-- Modelled from the spec: `skill_exists` membership test of the registry. -/
def skillExists (sm : SkillsManager) (n : String) : Bool :=
  sm.skills.contains n

/-- Modelled from the spec: `add_used_skill` records a referenced skill. -/
def addUsedSkill (sm : SkillsManager) (n : String) : SkillsManager :=
  { sm with usedSkills := sm.usedSkills ++ [n] }

/-- The configuration fields of schemas.df_config.Config the engine reads.
max_retries is an Int so that zero and negative caller configurations are
representable exactly as in Python. -/
structure DfConfig where
  directSql : Bool
  saveCharts : Bool
  saveChartsPath : String
  customWhitelistedDependencies : List String
  maxRetries : Int
  useErrorCorrectionFramework : Bool
deriving DecidableEq, Repr

/-- Modelled from the spec: WHITELISTED_LIBRARIES and WHITELISTED_BUILTINS
from pandasai.constants (not under src/), kept abstract as parameters. -/
structure Consts where
  libraries : List String
  builtins : List String
deriving DecidableEq, Repr

/-- Mutable attributes of a CodeManager instance, threaded explicitly
(_additional_dependencies is functionalized as a return value of the
sanitizer, as it is reset at the start of every _clean_code call). -/
structure ManagerState where
  currentCodeExecuted : String
  lastCodeExecuted : Option String
deriving DecidableEq, Repr

/-- Values living in the execution environment binding table. -/
inductive PyValue where
  | vnone
  | vint (v : Int)
  | vstr (v : String)
  | vbool (v : Bool)
  | vtable (t : DataTable)
  | vdfs (slots : List (Option DataTable))
  | vmodule (m : String)
  | vcallable (n : String)
  | vbuiltins
deriving DecidableEq, Repr

/-- The execution environment: an insertion-ordered binding table. -/
abbrev PyEnv := List (String × PyValue)

/-- Dictionary lookup on the binding table. -/
def envGet : PyEnv → String → Option PyValue
  | [], _ => none
  | (k2, v) :: rest, k => if k2 == k then some v else envGet rest k

/-- Dictionary assignment on the binding table: update in place when the key
exists, append otherwise. -/
def envSet (env : PyEnv) (k : String) (v : PyValue) : PyEnv :=
  if env.any (fun p => p.1 == k) then
    env.map (fun p => if p.1 == k then (k, v) else p)
  else env ++ [(k, v)]

/-- External Python runtime services used by the engine, as parameters of
the shallow embedding: `parse` is ast.parse (returning the module body),
`execPy` is the exec builtin run against a binding table, `reSubPng` is the
re.sub of CodeManager._replace_plot_png, `addSaveChart` is
helpers.save_chart.add_save_chart (module not under src/, modelled from the
spec as a text rewrite taking code, file name and charts path),
`extractTableNames` is helpers.sql.extract_table_names (module not under
src/, modelled from the spec as listing the table identifiers referenced by
an SQL string), and `projectRoot` is helpers.path.find_project_root. -/
structure PyRuntime where
  parse : String → Except PyErr PyStmtList
  execPy : String → PyEnv → Except PyErr PyEnv
  reSubPng : String → String
  addSaveChart : String → String → String → String
  extractTableNames : String → List String
  projectRoot : String

/-- CodeExecutionContext: prompt id plus skills manager. -/
structure ExecCtx where
  promptId : String
  skills : SkillsManager

/-- CodeManager._is_df_overwrite: an assignment whose first target is the
name `dfs`. -/
def isDfOverwrite : PyStmt → Bool
  | .assign ((.name id) :: _) _ _ => id == "dfs"
  | _ => false

/-- The DANGEROUS_BUILTINS list of CodeManager._is_jailbreak. -/
def dangerousBuiltins : List String := ["__subclasses__", "__builtins__", "__import__"]

/-- CodeManager._is_jailbreak: any dangerous builtin token occurring in the
ast.dump rendering of the statement. -/
def isJailbreak (node : PyStmt) : Bool :=
  dangerousBuiltins.any (fun b => substrB b (dumpStmt node))

/-- The denylisted data-export methods of CodeManager._is_unsafe. -/
def unsafeMethods : List String :=
  [".to_csv", ".to_excel", ".to_json", ".to_sql", ".to_feather", ".to_hdf",
   ".to_parquet", ".to_pickle", ".to_gbq", ".to_stata", ".to_records",
   ".to_latex", ".to_html", ".to_markdown", ".to_clipboard"]

/-- CodeManager._is_unsafe: any denylisted export method occurring as a
substring of the astor serialization of the statement. -/
def isUnsafe (node : PyStmt) : Bool :=
  unsafeMethods.any (fun m => substrB m (srcStmt node))

/-- Tests whether a statement is an ast.Import or ast.ImportFrom node. -/
def isImportStmt : PyStmt → Bool
  | .imprt _ => true
  | .importFrom _ _ => true
  | _ => false

/-- The module string _check_imports reads: `node.names[0].name` for Import,
`node.module` for ImportFrom. -/
def importModuleOf : PyStmt → Option String
  | .imprt names => some ((names.headD ⟨"", none⟩).aname)
  | .importFrom m _ => some m
  | _ => none

/-- Characters of a module path before the first dot. -/
def takeUntilDot : List Char → List Char
  | [] => []
  | c :: rest => if c == '.' then [] else c :: takeUntilDot rest

/-- The root library of a dotted module path: `module.split(".")[0]`. -/
def rootLibrary (module : String) : String :=
  String.mk (takeUntilDot module.data)

/-- CodeManager._check_imports: pandas passes silently; an allow-listed
library records its aliases as dependencies; a safe builtin passes silently;
anything else raises BadImportError naming the root library.  The appended
dependency records are returned instead of mutated into the instance. -/
def checkImports (consts : Consts) (cfg : DfConfig) (node : PyStmt) :
    Except PyErr (List Dep) :=
  match node with
  | .imprt names =>
      checkImportsCore consts cfg ((names.headD ⟨"", none⟩).aname) names
  | .importFrom m names => checkImportsCore consts cfg m names
  | _ => .ok []

where
  /-- Shared body of _check_imports once module and aliases are read. -/
  checkImportsCore (consts : Consts) (cfg : DfConfig) (module : String)
      (names : List ImportAlias) : Except PyErr (List Dep) :=
    let library := rootLibrary module
    if library == "pandas" then .ok []
    else if (consts.libraries ++ cfg.customWhitelistedDependencies).contains library then
      .ok (names.map fun a => ⟨module, a.aname, a.asname.getD a.aname⟩)
    else if !(consts.builtins.contains library) then .error (.badImport library)
    else .ok []

/-- CodeManager._validate_direct_sql: with direct-SQL mode on, all sources
must be SQL connectors equal to the first one, else InvalidConfigError; off,
it returns False.  The `all` over an empty source list is vacuously true, so
the first element is never read in that case, exactly as the Python
generator expression behaves. -/
def validateDirectSql (cfg : DfConfig) (dfs : List DataSource) :
    Except PyErr Bool :=
  if cfg.directSql then
    match dfs with
    | [] => .ok true
    | d0 :: _ =>
        if dfs.all (fun d => d.isSqlConnector && dsEquals d d0) then .ok true
        else .error (.invalidConfig
          "Direct requires all SQLConnector and they belong to same datasource and have same credentials")
  else .ok false

/-- Tests for a FunctionDef named execute_sql_query. -/
def isExecSqlFuncDef : PyStmt → Bool
  | .functionDef n _ => n == "execute_sql_query"
  | _ => false

/-- CodeManager.check_direct_sql_func_def_exists: the short-circuit
conjunction evaluates _validate_direct_sql first, so its
InvalidConfigError propagates for every node regardless of the node's
shape. -/
def checkDirectSqlFuncDefExists (cfg : DfConfig) (dfs : List DataSource)
    (node : PyStmt) : Except PyErr Bool :=
  match validateDirectSql cfg dfs with
  | .error e => .error e
  | .ok v => .ok (v && isExecSqlFuncDef node)

/-- CodeManager._get_sql_irrelevant_tables: for the first assignment target
that is a Name whose id is a substring of "sql_query" (Python's `target.id
in "sql_query"` is substring containment) while the assigned value is a
string constant, list the referenced tables that are not names of the
configured sources; no matching target yields None. -/
def getSqlIrrelevantTables (rt : PyRuntime) (dfs : List DataSource)
    (node : PyStmt) : Option (List String) :=
  match node with
  | .assign targets (.const (.s sqlq)) _ =>
      targets.findSome? fun t =>
        match t with
        | .name id =>
            if substrB id "sql_query" then
              some ((rt.extractTableNames sqlq).filter
                (fun tn => !((dfs.map (fun d => d.sname)).contains tn)))
            else none
        | _ => none
  | _ => none

mutual
/-- CodeManager.find_function_calls: records every statement-level call
expression whose callee name is a registered skill, recursing through child
statements. -/
def findCallsStmt (sm : SkillsManager) : PyStmt → SkillsManager
  | .exprStmt (.call (.name f) _) =>
      if skillExists sm f then addUsedSkill sm f else sm
  | .functionDef _ body => findCallsStmts sm body
  | _ => sm

/-- Recursion of find_function_calls over statement lists. -/
def findCallsStmts (sm : SkillsManager) : PyStmtList → SkillsManager
  | .nil => sm
  | .cons s rest => findCallsStmts (findCallsStmt sm s) rest
end

/-- The statement loop of CodeManager._clean_code over the parsed module
body: imports are resolved and removed; df overwrites, jailbreaks, unsafe
statements and redundant execute_sql_query definitions are silently
dropped; in direct-SQL mode an assignment with a non-empty unauthorized
table list raises MaliciousQueryError; surviving statements are kept in
order and scanned for skill calls. -/
def cleanNodes (rt : PyRuntime) (consts : Consts) (cfg : DfConfig)
    (dfs : List DataSource) :
    PyStmtList → SkillsManager → List Dep → List PyStmt →
      Except PyErr (List PyStmt × List Dep × SkillsManager)
  | .nil, sm, deps, acc => .ok (acc.reverse, deps, sm)
  | .cons node rest, sm, deps, acc =>
    if isImportStmt node then
      match checkImports consts cfg node with
      | .error e => .error e
      | .ok newDeps => cleanNodes rt consts cfg dfs rest sm (deps ++ newDeps) acc
    else if isDfOverwrite node || isJailbreak node || isUnsafe node then
      cleanNodes rt consts cfg dfs rest sm deps acc
    else
      match checkDirectSqlFuncDefExists cfg dfs node with
      | .error e => .error e
      | .ok b =>
        if b then cleanNodes rt consts cfg dfs rest sm deps acc
        else if cfg.directSql then
          match getSqlIrrelevantTables rt dfs node with
          | some (t :: ts) => .error (.maliciousQuery (t :: ts))
          | _ => cleanNodes rt consts cfg dfs rest (findCallsStmt sm node) deps (node :: acc)
        else cleanNodes rt consts cfg dfs rest (findCallsStmt sm node) deps (node :: acc)

/-- CodeManager._clean_code: parse, run the statement loop with a fresh
dependency list, and serialize the surviving statements back to one code
text. -/
def cleanCode (rt : PyRuntime) (consts : Consts) (cfg : DfConfig)
    (dfs : List DataSource) (sm : SkillsManager) (code : String) :
    Except PyErr (String × List Dep × SkillsManager) :=
  match rt.parse code with
  | .error e => .error e
  | .ok tree =>
    match cleanNodes rt consts cfg dfs tree sm [] [] with
    | .error e => .error e
    | .ok (kept, deps, sm2) => .ok (moduleToSource kept, deps, sm2)

/-- Python's `enumerate` with a starting index. -/
def enumFrom (k : Nat) : List α → List (Nat × α)
  | [] => []
  | a :: rest => (k, a) :: enumFrom (k + 1) rest

/-- CodeManager._required_dfs: either all-sources idiom requires every
source, or a source is required exactly when its positional reference text
occurs in the code; unneeded slots are None. -/
def requiredDfs (code : String) (dfs : List DataSource) : List (Option DataSource) :=
  if substrB "for df in dfs" code || substrB "pd.concat(dfs)" code then
    dfs.map some
  else
    (enumFrom 0 dfs).map fun p =>
      if substrB ("dfs[" ++ toString p.1 ++ "]") code then some p.2 else none

/-- CodeManager._tokenize_operand, under the py3.9 `ast` where
`subscript.slice.value` is the raw constant of a Constant slice and any
other slice shape raises AttributeError, which propagates to the extractor:
a Subscript yields the tokens of its value then its slice constant, a Name
yields its id, a Constant yields its value, anything else yields nothing. -/
def tokenizeOperand : PyExpr → Except PyErr (List PyConst)
  | .subscript v sl =>
    match sl with
    | .const c =>
      match tokenizeOperand v with
      | .error e => .error e
      | .ok rest => .ok (rest ++ [c])
    | _ => .error (.attrError "object has no attribute value")
  | .name id => .ok [.s id]
  | .const c => .ok [c]
  | _ => .ok []

/-- One candidate of _get_df_id_by_nearest_assignment's try block: the
assignment must have the shape `<target> = dfs[<const>]` with the first
target a Name equal to the traced token; any shape mismatch behaves as the
caught AttributeError and leaves the running candidate unchanged. -/
def nearestCandidate (targetTok : PyConst) : PyStmt → Option String
  | .assign ((.name tn) :: _) (.subscript (.name vn) (.const c)) _ =>
      if vn == "dfs" && (PyConst.s tn == targetTok) then
        some ("dfs[" ++ pyStr c ++ "]")
      else none
  | _ => none

/-- Line number of an assignment statement (0 for other shapes, which never
occur in the sorted assignment list). -/
def stmtLineno : PyStmt → Nat
  | .assign _ _ n => n
  | _ => 0

/-- Stable insertion into a list sorted ascending by line number. -/
def insertByLineno (a : PyStmt) : List PyStmt → List PyStmt
  | [] => [a]
  | b :: rest =>
      if stmtLineno b ≤ stmtLineno a then b :: insertByLineno a rest
      else a :: b :: rest

/-- Python's stable `sorted(..., key=lambda node: node.lineno)`. -/
def sortByLineno : List PyStmt → List PyStmt
  | [] => []
  | a :: rest => insertByLineno a (sortByLineno rest)

/-- Loop of CodeManager._get_df_id_by_nearest_assignment: scan assignments
in line order, remember the last matching `name = dfs[i]` strictly before
the current line, return it on passing the current line; the source has no
return statement after the loop, so exhausting the list yields None even
when a candidate was found. -/
def nearestLoop (currentLineno : Nat) (targetTok : PyConst) :
    List PyStmt → Option String → Option String
  | [], _ => none
  | a :: rest, acc =>
      if currentLineno < stmtLineno a then acc
      else
        nearestLoop currentLineno targetTok rest
          (match nearestCandidate targetTok a with
           | some s => some s
           | none => acc)

/-- CodeManager._get_df_id_by_nearest_assignment. -/
def getDfIdByNearestAssignment (currentLineno : Nat)
    (assignments : List PyStmt) (targetTok : PyConst) : Option String :=
  nearestLoop currentLineno targetTok (sortByLineno assignments) none

mutual
/-- Collects assignment statements from a statement, recursing through
nested bodies; models the AssignmentVisitor of helpers/node_visitors.py
(not under src/), modelled from the spec: collect all simple assignments
once. -/
def collectAssignsStmt : PyStmt → List PyStmt
  | .assign tgts v n => [.assign tgts v n]
  | .functionDef _ body => collectAssignsStmts body
  | _ => []

/-- Collects assignment statements from a statement list. -/
def collectAssignsStmts : PyStmtList → List PyStmt
  | .nil => []
  | .cons s rest => collectAssignsStmt s ++ collectAssignsStmts rest
end

mutual
/-- Collects every Compare node of an expression tree, in depth-first
order, as the `ast.walk` filter of _extract_comparisons visits them. -/
def collectComparesExpr : PyExpr → List PyExpr
  | .name _ => []
  | .const _ => []
  | .attrE v _ => collectComparesExpr v
  | .call f args => collectComparesExpr f ++ collectComparesExprList args
  | .subscript v i => collectComparesExpr v ++ collectComparesExpr i
  | .compare l ops cs n =>
      .compare l ops cs n :: (collectComparesExpr l ++ collectComparesExprList cs)

/-- Collects Compare nodes from an expression list. -/
def collectComparesExprList : PyExprList → List PyExpr
  | .nil => []
  | .cons e rest => collectComparesExpr e ++ collectComparesExprList rest
end

/-- Collects Compare nodes from an ordinary list of expressions. -/
def collectComparesExprs : List PyExpr → List PyExpr
  | [] => []
  | e :: rest => collectComparesExpr e ++ collectComparesExprs rest

mutual
/-- Collects Compare nodes from a statement. -/
def collectComparesStmt : PyStmt → List PyExpr
  | .assign tgts v _ => collectComparesExprs tgts ++ collectComparesExpr v
  | .exprStmt v => collectComparesExpr v
  | .functionDef _ body => collectComparesStmts body
  | _ => []

/-- Collects Compare nodes from a statement list. -/
def collectComparesStmts : PyStmtList → List PyExpr
  | .nil => []
  | .cons s rest => collectComparesStmt s ++ collectComparesStmts rest
end

/-- The per-source predicate dictionary of the filter extractor, an
insertion-ordered association list like a defaultdict(list). -/
abbrev Comparisons := List (String × List Predicate)

/-- Appends one predicate under a key, creating the key at the end on first
use, as a defaultdict does. -/
def addComparison (m : Comparisons) (k : String) (p : Predicate) : Comparisons :=
  match m with
  | [] => [(k, [p])]
  | (k2, ps) :: rest =>
      if k2 == k then (k2, ps ++ [p]) :: rest
      else (k2, ps) :: addComparison rest k p

/-- Python's zip over the operator and comparator lists of a Compare
node, truncating at the shorter. -/
def zipOpsComparators : List CmpOp → PyExprList → List (CmpOp × PyExpr)
  | op :: ops, .cons c rest => (op, c) :: zipOpsComparators ops rest
  | _, _ => []

/-- Inner loop of _extract_comparisons over the `zip(node.ops,
node.comparators)` pairs: each right operand is tokenized (`name, *slices =
...` raises ValueError on an empty token stream) and one predicate is
recorded under the current source label. -/
def extractPairs (currentDf : String) (leftTok : PyConst) :
    List (CmpOp × PyExpr) → Comparisons → Except PyErr Comparisons
  | [], m => .ok m
  | (op, right) :: rest, m =>
    let opStr := cmpMapStr op
    match tokenizeOperand right with
    | .error e => .error e
    | .ok [] => .error (.valueError "not enough values to unpack")
    | .ok (nm :: sls) =>
        let rightTok := (sls.getLast?).getD nm
        extractPairs currentDf leftTok rest
          (addComparison m currentDf (leftTok, opStr, rightTok))

/-- Outer loop of _extract_comparisons over the walked Compare nodes whose
left operand is a Subscript: trace the left operand through
_tokenize_operand, resolve the targeted source through the nearest
preceding `name = dfs[i]` assignment falling back to the running current
source, and record one predicate per comparator. -/
def extractCompareNodes (assignments : List PyStmt) :
    List PyExpr → String → Comparisons → Except PyErr Comparisons
  | [], _, m => .ok m
  | .compare (.subscript lv lsl) ops cs n :: rest, currentDf, m =>
    (match tokenizeOperand (.subscript lv lsl) with
     | .error e => .error e
     | .ok [] => .error (.valueError "not enough values to unpack")
     | .ok (nm :: sls) =>
        let newDf :=
          match getDfIdByNearestAssignment n assignments nm with
          | some s => s
          | none => currentDf
        let leftTok := (sls.getLast?).getD nm
        match extractPairs newDf leftTok (zipOpsComparators ops cs) m with
        | .error e => .error e
        | .ok m2 => extractCompareNodes assignments rest newDf m2)
  | _ :: rest, currentDf, m => extractCompareNodes assignments rest currentDf m

/-- CodeManager._extract_comparisons: collect assignments, walk the tree,
process every Compare node with a Subscript left operand, starting from
the default source label dfs[0]. -/
def extractComparisons (tree : PyStmtList) : Except PyErr Comparisons :=
  extractCompareNodes (collectAssignsStmts tree)
    (collectComparesStmts tree) "dfs[0]" []

/-- CodeManager._extract_filters: parse the code text and extract
comparisons; a parse failure or an extraction failure is logged and
re-raised unchanged. -/
def extractFilters (rt : PyRuntime) (code : String) : Except PyErr Comparisons :=
  match rt.parse code with
  | .error e => .error e
  | .ok tree => extractComparisons tree

/-- The filter extractor as the CodeManager instance runs it: the source
method reads the code text and writes no instance attribute, so the
threaded manager state is returned unchanged. -/
def extractFiltersSt (rt : PyRuntime) (st : ManagerState) (code : String) :
    ManagerState × Except PyErr Comparisons :=
  (st, extractFilters rt code)

/-- Loop of CodeManager._get_originals over the required-slot list with its
running index: a None slot stays an absent placeholder; a required source
gets the filters extracted from the current code under its `dfs[i]` label,
then its `execute()` materialization.  The second component records the
indices actually materialized, in order; a filter-extraction failure
propagates before the source at that slot is materialized. -/
def getOriginalsAux (rt : PyRuntime) (curCode : String) :
    List (Option DataSource) → Nat →
      Except PyErr (List (Option DataTable)) × List Nat
  | [], _ => (.ok [], [])
  | none :: rest, i =>
      let r := getOriginalsAux rt curCode rest (i + 1)
      (r.1.map (fun ts => none :: ts), r.2)
  | some df :: rest, i =>
      match extractFilters rt curCode with
      | .error e => (.error e, [])
      | .ok cmps =>
          let fs := ((cmps.lookup ("dfs[" ++ toString i ++ "]")).getD [])
          let df2 := { df with additionalFilters := fs }
          let r := getOriginalsAux rt curCode rest (i + 1)
          (r.1.map (fun ts => some df2.table :: ts), i :: r.2)

/-- CodeManager._get_originals, reading the current code text recorded on
the manager state. -/
def getOriginals (rt : PyRuntime) (st : ManagerState)
    (slots : List (Option DataSource)) :
    Except PyErr (List (Option DataTable)) × List Nat :=
  getOriginalsAux rt st.currentCodeExecuted slots 0

/-- CodeManager._get_environment: pandas under `pd`, each recorded
dependency bound under its alias (the import_dependency resolution is
modelled as an opaque module value), and the restricted builtins table. -/
def getEnvironment (deps : List Dep) : PyEnv :=
  ("pd", .vmodule "pandas")
    :: deps.map (fun d => (d.depAlias, PyValue.vmodule (d.module ++ ":" ++ d.depName)))
    ++ [("__builtins__", .vbuiltins)]

/-- The chart path rewrite step of execute_code: add_save_chart with the
prompt id under save_charts, else with the temp chart name under the
project charts directory. -/
def chartedCode (rt : PyRuntime) (cfg : DfConfig) (promptId : String)
    (code1 : String) : String :=
  if cfg.saveCharts then rt.addSaveChart code1 promptId cfg.saveChartsPath
  else rt.addSaveChart code1 "temp_chart" (rt.projectRoot ++ "/exports/charts")

/-- The final stage of execute_code: one exec invocation against the built
environment (recorded in the trace), then the read of the reserved result
binding, No-Result-Found when absent. -/
def execAndRead (rt : PyRuntime) (st2 : ManagerState) (codeToRun : String)
    (env2 : PyEnv) : ManagerState × List (String × PyEnv) × Except PyErr PyValue :=
  match rt.execPy codeToRun env2 with
  | .error e => (st2, [(codeToRun, env2)], .error e)
  | .ok envF =>
    match envGet envF "result" with
    | none => (st2, [(codeToRun, env2)], .error (.noResultFound "No result returned"))
    | some v => (st2, [(codeToRun, env2)], .ok v)

/-- CodeManager.execute_code: rewrite chart paths, record the current code,
reset used skills, sanitize, record the sanitized code, select and
materialize the required sources, build the environment (binding the
direct-SQL callable of the first source when direct-SQL mode is on, and the
used skills), run exec once, and read the reserved `result` binding.  The
middle component of the result lists the (code, environment) pairs passed
to exec, so each return site shows whether execution was reached. -/
def executeCode (rt : PyRuntime) (consts : Consts) (cfg : DfConfig)
    (ctx : ExecCtx) (dfs : List DataSource) (st : ManagerState)
    (code : String) :
    ManagerState × List (String × PyEnv) × Except PyErr PyValue :=
  let code1 := rt.reSubPng code
  let st1 := { st with currentCodeExecuted := code1 }
  let code2 := chartedCode rt cfg ctx.promptId code1
  let sm0 := { ctx.skills with usedSkills := [] }
  match cleanCode rt consts cfg dfs sm0 code2 with
  | .error e => (st1, [], .error e)
  | .ok (codeToRun, deps, sm1) =>
    let st2 := { st1 with lastCodeExecuted := some codeToRun }
    let slots := requiredDfs codeToRun dfs
    match getOriginals rt st2 slots with
    | (.error e, _) => (st2, [], .error e)
    | (.ok origs, _) =>
      let env0 := envSet (getEnvironment deps) "dfs" (.vdfs origs)
      let envE : Except PyErr PyEnv :=
        if cfg.directSql then
          match dfs with
          | [] => .error (.indexError "list index out of range")
          | d0 :: _ =>
              .ok (envSet env0 "execute_sql_query"
                (.vcallable ("execute_direct_sql_query@" ++ d0.sname)))
        else .ok env0
      match envE with
      | .error e => (st2, [], .error e)
      | .ok env1 =>
        let env2 := sm1.usedSkills.foldl (fun e n => envSet e n (.vcallable n)) env1
        execAndRead rt st2 codeToRun env2

/-- The outcome of the retry controller together with the number of
execute_code invocations and the number of repair-callback invocations
(the source calls on_failure twice per repaired attempt: once inside the
debug print and once for the returned code). -/
structure RetryTrace (α : Type) where
  outcome : Except PyErr (Option α)
  execCount : Nat
  repairCount : Nat
deriving Repr

/-- The while loop of CodeExecution.execute, embedded structurally on the
fuel `max_retries - retry_count` clamped at zero, so the loop guard
`retry_count < max_retries` is `fuel > 0` and the re-raise guard
`retry_count >= max_retries - 1` is `fuel = 1`.  One attempt runs
execute_code and, when an output-type helper is configured, its
validation; any failure re-raises when correction is off or attempts are
exhausted, otherwise the repair callback produces the next code text (a
missing callback re-raises from _retry_run_code). -/
def codeExecutionLoop {α : Type} (cfg : DfConfig)
    (onFailure : Option (String → PyErr → String))
    (validator : Option (α → Bool × String))
    (run : String → Except PyErr α) : Nat → String → RetryTrace α
  | 0, _ => ⟨.ok none, 0, 0⟩
  | fuel + 1, code =>
    let attempt : Except PyErr α :=
      match run code with
      | .error e => .error e
      | .ok v =>
        match validator with
        | none => .ok v
        | some f => if (f v).1 then .ok v else .error (.invalidLLMOutputType (f v).2)
    match attempt with
    | .ok v => ⟨.ok (some v), 1, 0⟩
    | .error e =>
      if !cfg.useErrorCorrectionFramework || fuel == 0 then ⟨.error e, 1, 0⟩
      else
        match onFailure with
        | none => ⟨.error e, 1, 0⟩
        | some f =>
            let rest := codeExecutionLoop cfg onFailure validator run fuel (f code e)
            ⟨rest.outcome, 1 + rest.execCount, 2 + rest.repairCount⟩

/-- The successful stage output of CodeExecution.execute. -/
structure LogicUnitOutput (α : Type) where
  result : Option α
  success : Bool
  message : String
deriving DecidableEq, Repr

/-- Result of the CodeExecution stage: the returned output or the raised
failure, with the invocation counters of the loop. -/
structure StageResult (α : Type) where
  output : Except PyErr (LogicUnitOutput α)
  execCount : Nat
  repairCount : Nat
deriving Repr

/-- CodeExecution.execute: run the bounded retry loop from retry_count 0
and wrap the loop result (still None when the loop never entered) in the
success output. -/
def codeExecutionExecute {α : Type} (cfg : DfConfig)
    (onFailure : Option (String → PyErr → String))
    (validator : Option (α → Bool × String))
    (run : String → Except PyErr α) (code : String) : StageResult α :=
  let t := codeExecutionLoop cfg onFailure validator run cfg.maxRetries.toNat code
  { output :=
      match t.outcome with
      | .error e => .error e
      | .ok ov => .ok { result := ov, success := true, message := "Code Executed Successfully" },
    execCount := t.execCount,
    repairCount := t.repairCount }


/-- Fixture for C2: a module body consisting of one disallowed import. -/
def fixBodyC2 : PyStmtList := .cons (.imprt [⟨"os", none⟩]) .nil

/-- Fixture for C2: a runtime whose parser yields the disallowed-import
body, with identity chart rewrites and an exec that returns its
environment. -/
def fixRtC2 : PyRuntime :=
  ⟨fun _ => .ok fixBodyC2, fun _ env => .ok env, fun s => s,
    fun c _ _ => c, fun _ => [], "/p"⟩

/-- Fixture for C3: an assignment of an SQL literal to sql_query whose
literal also contains a denylisted export-method substring. -/
def fixStmtC3 : PyStmt :=
  .assign [.name "sql_query"] (.const (.s "SELECT * FROM users -- .to_csv")) 1

/-- Fixture for C3: a runtime parsing to the export-substring SQL body,
whose table extractor reports the unauthorized table users. -/
def fixRtC3 : PyRuntime :=
  ⟨fun _ => .ok (.cons fixStmtC3 .nil), fun _ env => .ok env, fun s => s,
    fun c _ _ => c, fun _ => ["users"], "/p"⟩

/-- Fixture for C3: the same unauthorized SQL assignment without any
denylisted substring. -/
def fixStmtC3b : PyStmt :=
  .assign [.name "sql_query"] (.const (.s "SELECT * FROM users")) 1

/-- Fixture for C3: runtime parsing to the plain unauthorized SQL body. -/
def fixRtC3b : PyRuntime :=
  ⟨fun _ => .ok (.cons fixStmtC3b .nil), fun _ env => .ok env, fun s => s,
    fun c _ _ => c, fun _ => ["users"], "/p"⟩

/-- Fixture for C4: a statement calling a denylisted export method. -/
def fixStmtC4 : PyStmt :=
  .exprStmt (.call (.attrE (.subscript (.name "dfs") (.const (.i 0))) "to_csv")
    (.cons (.const (.s "out.csv")) .nil))

/-- Fixture for C4: a surrounding valid statement. -/
def fixSafeC4 : PyStmt := .assign [.name "result"] (.const (.i 1)) 1

/-- Fixture for C4: a basic runtime (the sanitizer consults it only for
table extraction, which this body never triggers). -/
def fixRtC4 : PyRuntime :=
  ⟨fun _ => .ok .nil, fun _ env => .ok env, fun s => s,
    fun c _ _ => c, fun _ => [], "/p"⟩

/-- Fixture for C6: a statement using an unbound allow-listed alias. -/
def fixStmtC6 : PyStmt :=
  .assign [.name "result"]
    (.call (.attrE (.name "np") "mean")
      (.cons (.subscript (.name "dfs") (.const (.i 0))) .nil)) 1

/-- Fixture for C6: a runtime whose exec always raises the NameError for
the allow-listed alias np. -/
def fixRtC6 : PyRuntime :=
  ⟨fun _ => .ok (.cons fixStmtC6 .nil),
    fun _ _ => .error (.nameError "name np is not defined"), fun s => s,
    fun c _ _ => c, fun _ => [], "/p"⟩

/-- Fixture for C6: one pandas source. -/
def fixDfsC6 : List DataSource := [⟨"orders", false, 0, ⟨1⟩, []⟩]

/-- Fixture for C7: a runtime parsing every text to a lone pandas import. -/
def fixRtC7 : PyRuntime :=
  ⟨fun _ => .ok (.cons (.imprt [⟨"pandas", none⟩]) .nil),
    fun _ env => .ok env, fun s => s, fun c _ _ => c, fun _ => [], "/p"⟩

/-- Fixture for C7: two sources of different connector kinds, an invalid
configuration for direct-SQL mode. -/
def fixDfsC7 : List DataSource :=
  [⟨"users", true, 1, ⟨1⟩, []⟩, ⟨"files", false, 2, ⟨2⟩, []⟩]

/-- Fixture for C7: an ordinary surviving statement. -/
def fixSafeC7 : PyStmt := .assign [.name "result"] (.const (.i 1)) 1

/-- Fixture for C7: a runtime parsing to the ordinary statement body. -/
def fixRtC7b : PyRuntime :=
  ⟨fun _ => .ok (.cons fixSafeC7 .nil), fun _ env => .ok env, fun s => s,
    fun c _ _ => c, fun _ => [], "/p"⟩

/-- Fixture for C8: three sources named orders, order_details, products. -/
def fixDfsC8 : List DataSource :=
  [⟨"orders", false, 0, ⟨1⟩, []⟩, ⟨"order_details", false, 0, ⟨2⟩, []⟩,
   ⟨"products", false, 0, ⟨3⟩, []⟩]

/-- Fixture for C8: a basic runtime whose parser yields an empty body. -/
def fixRtC8 : PyRuntime :=
  ⟨fun _ => .ok .nil, fun _ env => .ok env, fun s => s,
    fun c _ _ => c, fun _ => [], "/p"⟩

/-- Fixture for C9: a runtime whose parser rejects every text. -/
def fixRtC9 : PyRuntime :=
  ⟨fun _ => .error (.syntaxError "invalid syntax"), fun _ env => .ok env,
    fun s => s, fun c _ _ => c, fun _ => [], "/p"⟩

/-- The keep conditions of one sanitizer step for a statement: not an
import, no silent-drop check fires, the redundant-SQL-def check returns
false without raising, and in direct-SQL mode the unauthorized-table list
is empty or absent. -/
def passesAll (rt : PyRuntime) (_consts : Consts) (cfg : DfConfig)
    (dfs : List DataSource) (n : PyStmt) : Prop :=
  isImportStmt n = false ∧
  (isDfOverwrite n || isJailbreak n || isUnsafe n) = false ∧
  checkDirectSqlFuncDefExists cfg dfs n = .ok false ∧
  (cfg.directSql = false ∨ getSqlIrrelevantTables rt dfs n = none ∨
    getSqlIrrelevantTables rt dfs n = some [])

/-- A statement whose processing raises whenever the sanitizer reaches it:
either an import whose resolution fails, or a non-dropped statement on
which the direct-SQL validation raises, or a non-dropped assignment with a
non-empty unauthorized-table list in direct-SQL mode. -/
def nodeRaises (rt : PyRuntime) (consts : Consts) (cfg : DfConfig)
    (dfs : List DataSource) (n : PyStmt) : Prop :=
  (isImportStmt n = true ∧ ∃ e, checkImports consts cfg n = .error e)
  ∨ (isImportStmt n = false ∧
      (isDfOverwrite n || isJailbreak n || isUnsafe n) = false ∧
      ((∃ e, checkDirectSqlFuncDefExists cfg dfs n = .error e)
        ∨ (checkDirectSqlFuncDefExists cfg dfs n = .ok false ∧
            cfg.directSql = true ∧
            ∃ t ts, getSqlIrrelevantTables rt dfs n = some (t :: ts))))

/-- A positive-fuel loop entry always performs at least one execution. -/
theorem codeExecutionLoop_pos_exec {α : Type} (cfg : DfConfig)
    (onFailure : Option (String → PyErr → String))
    (validator : Option (α → Bool × String))
    (run : String → Except PyErr α) (fuel : Nat) (code : String) :
    1 ≤ (codeExecutionLoop cfg onFailure validator run (fuel + 1) code).execCount := by
  simp only [codeExecutionLoop]
  repeat' split
  all_goals simp

/-- C10: when the configured maximum retry count is zero or negative, the
retry controller executes the code unit zero times and returns the
success-shaped output with message "Code Executed Successfully" and result
None, raising nothing. -/
theorem claim_C10_nonpositive_retries_no_execution {α : Type} (cfg : DfConfig)
    (onFailure : Option (String → PyErr → String))
    (validator : Option (α → Bool × String))
    (run : String → Except PyErr α) (code : String)
    (h : cfg.maxRetries ≤ 0) :
    codeExecutionExecute cfg onFailure validator run code =
      ⟨.ok ⟨none, true, "Code Executed Successfully"⟩, 0, 0⟩ := by
  have ht : cfg.maxRetries.toNat = 0 := Int.toNat_of_nonpos h
  simp [codeExecutionExecute, ht, codeExecutionLoop]

/-- Witness for C10 at maxRetries = -2 with a run that would succeed. -/
theorem claim_C10_nonpositive_retries_no_execution_witness :
    (DfConfig.maxRetries ⟨false, false, "", [], -2, true⟩ ≤ 0) ∧
      codeExecutionExecute (α := Nat) ⟨false, false, "", [], -2, true⟩ none none
        (fun _ => .ok 5) "code" =
        ⟨.ok ⟨none, true, "Code Executed Successfully"⟩, 0, 0⟩ :=
  ⟨by decide,
   claim_C10_nonpositive_retries_no_execution _ none none _ "code" (by decide)⟩

/-- C5: with maxRetries = 3 and error correction enabled, a repair callback
facing a run that always raises the same failure yields exactly 3
executions and the original failure re-raised; a run that fails on the
first two code texts and succeeds on the third yields exactly 3 executions
with the third attempt's value returned. -/
theorem claim_C5_three_attempts {α : Type} (f : String → PyErr → String)
    (run1 run2 : String → Except PyErr α) (e : PyErr) (c0 : String)
    (e0 e1 : PyErr) (v : α)
    (h1 : ∀ c, run1 c = .error e)
    (h2 : run2 c0 = .error e0)
    (h3 : run2 (f c0 e0) = .error e1)
    (h4 : run2 (f (f c0 e0) e1) = .ok v) :
    codeExecutionExecute ⟨false, false, "", [], 3, true⟩ (some f) none run1 c0 =
        ⟨.error e, 3, 4⟩ ∧
      codeExecutionExecute ⟨false, false, "", [], 3, true⟩ (some f) none run2 c0 =
        ⟨.ok ⟨some v, true, "Code Executed Successfully"⟩, 3, 4⟩ := by
  constructor
  · simp [codeExecutionExecute, codeExecutionLoop, h1]
  · simp [codeExecutionExecute, codeExecutionLoop, h2, h3, h4]

/-- Witness for C5: a run raising the same failure everywhere, and a run
failing exactly on the first two produced code texts. -/
theorem claim_C5_three_attempts_witness :
    codeExecutionExecute (α := Nat) ⟨false, false, "", [], 3, true⟩
        (some (fun c _ => c ++ "x")) none
        (fun _ => .error (.runtimeFailure "boom")) "q" =
      ⟨.error (.runtimeFailure "boom"), 3, 4⟩ ∧
    codeExecutionExecute (α := Nat) ⟨false, false, "", [], 3, true⟩
        (some (fun c _ => c ++ "x")) none
        (fun c => if c = "qxx" then .ok 42 else .error (.runtimeFailure "boom")) "q" =
      ⟨.ok ⟨some 42, true, "Code Executed Successfully"⟩, 3, 4⟩ :=
  claim_C5_three_attempts (fun c _ => c ++ "x")
    (fun _ => .error (.runtimeFailure "boom"))
    (fun c => if c = "qxx" then .ok 42 else .error (.runtimeFailure "boom"))
    (.runtimeFailure "boom") "q" (.runtimeFailure "boom") (.runtimeFailure "boom") 42
    (fun _ => rfl) rfl rfl rfl

/-- C1 is false on the code: the retry controller catches every exception
uniformly, so a Malicious-Query failure raised on the first attempt with
error correction enabled and a retry remaining leads to a repair-callback
invocation and a second attempt (and the same for Invalid-Configuration),
instead of immediate propagation. -/
theorem claim_C1_counterexample :
    codeExecutionExecute (α := Nat) ⟨false, false, "", [], 2, true⟩
        (some (fun c _ => c)) none
        (fun _ => .error (.maliciousQuery ["users"])) "q" =
      ⟨.error (.maliciousQuery ["users"]), 2, 2⟩ ∧
    codeExecutionExecute (α := Nat) ⟨false, false, "", [], 2, true⟩
        (some (fun c _ => c)) none
        (fun _ => .error (.invalidConfig "mismatch")) "q" =
      ⟨.error (.invalidConfig "mismatch"), 2, 2⟩ := by
  constructor <;> rfl

/-- C1 amended: Malicious-Query and Invalid-Configuration failures are
handled by the retry controller exactly like every other failure: with
error correction disabled (or no retry remaining) any failure propagates
after a single execution without invoking the repair callback, and with
error correction enabled and at least one retry remaining the repair
callback is invoked and a further attempt starts, whatever the failure
kind. -/
theorem claim_C1_uniform_failure_handling {α : Type} (cfg : DfConfig)
    (f : String → PyErr → String) (run : String → Except PyErr α)
    (c : String) (e : PyErr) (h : run c = .error e) :
    (cfg.useErrorCorrectionFramework = false → 1 ≤ cfg.maxRetries →
      codeExecutionExecute cfg (some f) none run c = ⟨.error e, 1, 0⟩) ∧
    (cfg.useErrorCorrectionFramework = true → 2 ≤ cfg.maxRetries →
      2 ≤ (codeExecutionExecute cfg (some f) none run c).repairCount ∧
        2 ≤ (codeExecutionExecute cfg (some f) none run c).execCount) := by
  constructor
  · intro hec hmr
    obtain ⟨n, hn⟩ : ∃ n, cfg.maxRetries.toNat = n + 1 := by
      refine ⟨cfg.maxRetries.toNat - 1, ?_⟩
      omega
    simp [codeExecutionExecute, hn, codeExecutionLoop, h, hec]
  · intro hec hmr
    obtain ⟨n, hn⟩ : ∃ n, cfg.maxRetries.toNat = n + 1 + 1 := by
      refine ⟨cfg.maxRetries.toNat - 2, ?_⟩
      omega
    have hpos := codeExecutionLoop_pos_exec cfg (some f) none run n (f c e)
    have hstep : codeExecutionLoop cfg (some f) none run (n + 1 + 1) c =
        ⟨(codeExecutionLoop cfg (some f) none run (n + 1) (f c e)).outcome,
         1 + (codeExecutionLoop cfg (some f) none run (n + 1) (f c e)).execCount,
         2 + (codeExecutionLoop cfg (some f) none run (n + 1) (f c e)).repairCount⟩ := by
      simp [codeExecutionLoop, h, hec]
    constructor
    · simp [codeExecutionExecute, hn, hstep]
    · simp [codeExecutionExecute, hn, hstep]
      omega

/-- Witness for the amended C1 at a Malicious-Query failure under both
configuration regimes. -/
theorem claim_C1_uniform_failure_handling_witness :
    (codeExecutionExecute (α := Nat) ⟨false, false, "", [], 3, false⟩
        (some (fun c _ => c)) none
        (fun _ => .error (.maliciousQuery ["users"])) "q" =
      ⟨.error (.maliciousQuery ["users"]), 1, 0⟩) ∧
    (2 ≤ (codeExecutionExecute (α := Nat) ⟨false, false, "", [], 3, true⟩
        (some (fun c _ => c)) none
        (fun _ => .error (.maliciousQuery ["users"])) "q").repairCount ∧
      2 ≤ (codeExecutionExecute (α := Nat) ⟨false, false, "", [], 3, true⟩
        (some (fun c _ => c)) none
        (fun _ => .error (.maliciousQuery ["users"])) "q").execCount) :=
  ⟨(claim_C1_uniform_failure_handling ⟨false, false, "", [], 3, false⟩
      (fun c _ => c) (fun _ => .error (.maliciousQuery ["users"])) "q"
      (.maliciousQuery ["users"]) rfl).1 rfl (by decide),
   (claim_C1_uniform_failure_handling ⟨false, false, "", [], 3, true⟩
      (fun c _ => c) (fun _ => .error (.maliciousQuery ["users"])) "q"
      (.maliciousQuery ["users"]) rfl).2 rfl (by decide)⟩

/-- Statements already accumulated are contained in the sanitizer's kept
output. -/
theorem cleanNodes_acc_mem (rt : PyRuntime) (consts : Consts) (cfg : DfConfig)
    (dfs : List DataSource) :
    ∀ (body : PyStmtList) (sm : SkillsManager) (deps : List Dep)
      (acc kept : List PyStmt) (d2 : List Dep) (s2 : SkillsManager),
      cleanNodes rt consts cfg dfs body sm deps acc = .ok (kept, d2, s2) →
      ∀ x, x ∈ acc → x ∈ kept
  | .nil, sm, deps, acc, kept, d2, s2, h, x, hx => by
      simp only [cleanNodes, Except.ok.injEq, Prod.mk.injEq] at h
      obtain ⟨h1, _, _⟩ := h
      subst h1
      exact List.mem_reverse.mpr hx
  | .cons node rest, sm, deps, acc, kept, d2, s2, h, x, hx => by
      simp only [cleanNodes] at h
      repeat' split at h
      all_goals first
        | (cases h)
        | (exact cleanNodes_acc_mem rt consts cfg dfs rest _ _ _ _ _ _ h x hx)
        | (exact cleanNodes_acc_mem rt consts cfg dfs rest _ _ _ _ _ _ h x
            (List.mem_cons_of_mem _ hx))

/-- Inversion of one successful sanitizer step: a surviving run over
`node :: rest` went through exactly one of the four continuing branches
(import resolution, silent drop, redundant SQL-function drop, keep). -/
theorem cleanNodes_cons_inv (rt : PyRuntime) (consts : Consts) (cfg : DfConfig)
    (dfs : List DataSource) (node : PyStmt) (rest : PyStmtList)
    (sm : SkillsManager) (deps : List Dep) (acc kept : List PyStmt)
    (d2 : List Dep) (s2 : SkillsManager)
    (h : cleanNodes rt consts cfg dfs (.cons node rest) sm deps acc = .ok (kept, d2, s2)) :
    (isImportStmt node = true ∧ ∃ nd, checkImports consts cfg node = .ok nd ∧
        cleanNodes rt consts cfg dfs rest sm (deps ++ nd) acc = .ok (kept, d2, s2))
    ∨ (isImportStmt node = false ∧
        (isDfOverwrite node || isJailbreak node || isUnsafe node) = true ∧
        cleanNodes rt consts cfg dfs rest sm deps acc = .ok (kept, d2, s2))
    ∨ (isImportStmt node = false ∧
        (isDfOverwrite node || isJailbreak node || isUnsafe node) = false ∧
        checkDirectSqlFuncDefExists cfg dfs node = .ok true ∧
        cleanNodes rt consts cfg dfs rest sm deps acc = .ok (kept, d2, s2))
    ∨ (isImportStmt node = false ∧
        (isDfOverwrite node || isJailbreak node || isUnsafe node) = false ∧
        checkDirectSqlFuncDefExists cfg dfs node = .ok false ∧
        (cfg.directSql = false ∨ getSqlIrrelevantTables rt dfs node = none ∨
          getSqlIrrelevantTables rt dfs node = some []) ∧
        cleanNodes rt consts cfg dfs rest (findCallsStmt sm node) deps (node :: acc) =
          .ok (kept, d2, s2)) := by
  by_cases hi : isImportStmt node
  · simp only [cleanNodes, hi, if_true] at h
    cases hc : checkImports consts cfg node with
    | error e => simp [hc] at h
    | ok nd =>
        simp only [hc] at h
        exact Or.inl ⟨hi, nd, rfl, h⟩
  · simp only [cleanNodes, hi, Bool.false_eq_true, if_false] at h
    by_cases hd : (isDfOverwrite node || isJailbreak node || isUnsafe node) = true
    · simp only [hd, if_true] at h
      exact Or.inr (Or.inl ⟨Bool.eq_false_iff.mpr hi, hd, h⟩)
    · simp only [hd, Bool.false_eq_true, if_false] at h
      cases hv : checkDirectSqlFuncDefExists cfg dfs node with
      | error e => simp [hv] at h
      | ok b =>
          simp only [hv] at h
          cases b with
          | true =>
              simp only [if_true] at h
              exact Or.inr (Or.inr (Or.inl
                ⟨Bool.eq_false_iff.mpr hi, Bool.eq_false_iff.mpr hd, rfl, h⟩))
          | false =>
              simp only [Bool.false_eq_true, if_false] at h
              by_cases hq : cfg.directSql = true
              · simp only [hq, if_true] at h
                cases hg : getSqlIrrelevantTables rt dfs node with
                | none =>
                    simp only [hg] at h
                    exact Or.inr (Or.inr (Or.inr
                      ⟨Bool.eq_false_iff.mpr hi, Bool.eq_false_iff.mpr hd, rfl,
                        Or.inr (Or.inl rfl), h⟩))
                | some l =>
                    cases l with
                    | nil =>
                        simp only [hg] at h
                        exact Or.inr (Or.inr (Or.inr
                          ⟨Bool.eq_false_iff.mpr hi, Bool.eq_false_iff.mpr hd, rfl,
                            Or.inr (Or.inr rfl), h⟩))
                    | cons t ts => simp [hg] at h
              · simp only [hq, if_false] at h
                exact Or.inr (Or.inr (Or.inr
                  ⟨Bool.eq_false_iff.mpr hi, Bool.eq_false_iff.mpr hd, rfl,
                    Or.inl (Bool.eq_false_iff.mpr hq), h⟩))

/-- A statement that is an import or matches one of the silent-drop checks
is never part of the sanitizer's kept output (unless it was already in the
accumulator). -/
theorem cleanNodes_dropped_not_kept (rt : PyRuntime) (consts : Consts)
    (cfg : DfConfig) (dfs : List DataSource) (s : PyStmt)
    (hs : isImportStmt s = true ∨
      (isDfOverwrite s || isJailbreak s || isUnsafe s) = true) :
    ∀ (body : PyStmtList) (sm : SkillsManager) (deps : List Dep)
      (acc kept : List PyStmt) (d2 : List Dep) (s2 : SkillsManager),
      cleanNodes rt consts cfg dfs body sm deps acc = .ok (kept, d2, s2) →
      s ∉ acc → s ∉ kept
  | .nil, sm, deps, acc, kept, d2, s2, h, hacc => by
      simp only [cleanNodes, Except.ok.injEq, Prod.mk.injEq] at h
      obtain ⟨h1, _, _⟩ := h
      subst h1
      exact fun hk => hacc (List.mem_reverse.mp hk)
  | .cons node rest, sm, deps, acc, kept, d2, s2, h, hacc => by
      rcases cleanNodes_cons_inv rt consts cfg dfs node rest sm deps acc kept d2 s2 h with
        ⟨_, nd, _, hrec⟩ | ⟨_, _, hrec⟩ | ⟨_, _, _, hrec⟩ | ⟨hni, hnd, _, _, hrec⟩
      · exact cleanNodes_dropped_not_kept rt consts cfg dfs s hs rest _ _ _ _ _ _ hrec hacc
      · exact cleanNodes_dropped_not_kept rt consts cfg dfs s hs rest _ _ _ _ _ _ hrec hacc
      · exact cleanNodes_dropped_not_kept rt consts cfg dfs s hs rest _ _ _ _ _ _ hrec hacc
      · refine cleanNodes_dropped_not_kept rt consts cfg dfs s hs rest _ _ _ _ _ _ hrec ?_
        intro hmem
        rcases List.mem_cons.mp hmem with heq | hmem2
        · subst heq
          rcases hs with h1 | h2
          · rw [hni] at h1; cases h1
          · rw [hnd] at h2; cases h2
        · exact hacc hmem2

/-- Every statement of the body satisfying the keep conditions appears in
the sanitizer's kept output. -/
theorem cleanNodes_passes_kept (rt : PyRuntime) (consts : Consts)
    (cfg : DfConfig) (dfs : List DataSource) (s : PyStmt)
    (hs : passesAll rt consts cfg dfs s) :
    ∀ (body : PyStmtList) (sm : SkillsManager) (deps : List Dep)
      (acc kept : List PyStmt) (d2 : List Dep) (s2 : SkillsManager),
      cleanNodes rt consts cfg dfs body sm deps acc = .ok (kept, d2, s2) →
      s ∈ stmtsToList body → s ∈ kept
  | .nil, sm, deps, acc, kept, d2, s2, h, hmem => by
      simp [stmtsToList] at hmem
  | .cons node rest, sm, deps, acc, kept, d2, s2, h, hmem => by
      rcases List.mem_cons.mp hmem with heq | hmem2
      · subst heq
        rcases cleanNodes_cons_inv rt consts cfg dfs s rest sm deps acc kept d2 s2 h with
          ⟨h1, _, _, _⟩ | ⟨_, h2, _⟩ | ⟨_, _, h3, _⟩ | ⟨_, _, _, _, hrec⟩
        · rw [hs.1] at h1; cases h1
        · rw [hs.2.1] at h2; cases h2
        · rw [hs.2.2.1] at h3; cases h3
        · exact cleanNodes_acc_mem rt consts cfg dfs rest _ _ _ _ _ _ hrec s
            (List.mem_cons_self _ _)
      · rcases cleanNodes_cons_inv rt consts cfg dfs node rest sm deps acc kept d2 s2 h with
          ⟨_, nd, _, hrec⟩ | ⟨_, _, hrec⟩ | ⟨_, _, _, hrec⟩ | ⟨_, _, _, _, hrec⟩
        · exact cleanNodes_passes_kept rt consts cfg dfs s hs rest _ _ _ _ _ _ hrec hmem2
        · exact cleanNodes_passes_kept rt consts cfg dfs s hs rest _ _ _ _ _ _ hrec hmem2
        · exact cleanNodes_passes_kept rt consts cfg dfs s hs rest _ _ _ _ _ _ hrec hmem2
        · exact cleanNodes_passes_kept rt consts cfg dfs s hs rest _ _ _ _ _ _ hrec hmem2

/-- A body containing a statement whose processing raises can never be
sanitized successfully. -/
theorem cleanNodes_raises_no_ok (rt : PyRuntime) (consts : Consts)
    (cfg : DfConfig) (dfs : List DataSource) (n : PyStmt)
    (hn : nodeRaises rt consts cfg dfs n) :
    ∀ (body : PyStmtList) (sm : SkillsManager) (deps : List Dep)
      (acc kept : List PyStmt) (d2 : List Dep) (s2 : SkillsManager),
      n ∈ stmtsToList body →
      cleanNodes rt consts cfg dfs body sm deps acc = .ok (kept, d2, s2) → False
  | .nil, sm, deps, acc, kept, d2, s2, hmem, h => by
      simp [stmtsToList] at hmem
  | .cons node rest, sm, deps, acc, kept, d2, s2, hmem, h => by
      rcases List.mem_cons.mp hmem with heq | hmem2
      · subst heq
        rcases cleanNodes_cons_inv rt consts cfg dfs n rest sm deps acc kept d2 s2 h with
          ⟨h1, nd, hok, _⟩ | ⟨h1, h2, _⟩ | ⟨h1, h2, h3, _⟩ | ⟨h1, h2, h3, h4, _⟩
        · rcases hn with ⟨_, e, herr⟩ | ⟨hni, _, _⟩
          · rw [herr] at hok; cases hok
          · rw [hni] at h1; cases h1
        · rcases hn with ⟨hii, _⟩ | ⟨_, hnd, _⟩
          · rw [h1] at hii; cases hii
          · rw [hnd] at h2; cases h2
        · rcases hn with ⟨hii, _⟩ | ⟨_, _, ⟨e, herr⟩ | ⟨hck, _, _⟩⟩
          · rw [h1] at hii; cases hii
          · rw [herr] at h3; cases h3
          · rw [hck] at h3; cases h3
        · rcases hn with ⟨hii, _⟩ | ⟨_, _, ⟨e, herr⟩ | ⟨_, hds, t, ts, hsq⟩⟩
          · rw [h1] at hii; cases hii
          · rw [herr] at h3; cases h3
          · rcases h4 with hq | hng | hne
            · rw [hds] at hq; cases hq
            · rw [hsq] at hng; cases hng
            · rw [hsq] at hne; cases hne
      · rcases cleanNodes_cons_inv rt consts cfg dfs node rest sm deps acc kept d2 s2 h with
          ⟨_, nd, _, hrec⟩ | ⟨_, _, hrec⟩ | ⟨_, _, _, hrec⟩ | ⟨_, _, _, _, hrec⟩
        · exact cleanNodes_raises_no_ok rt consts cfg dfs n hn rest _ _ _ _ _ _ hmem2 hrec
        · exact cleanNodes_raises_no_ok rt consts cfg dfs n hn rest _ _ _ _ _ _ hmem2 hrec
        · exact cleanNodes_raises_no_ok rt consts cfg dfs n hn rest _ _ _ _ _ _ hmem2 hrec
        · exact cleanNodes_raises_no_ok rt consts cfg dfs n hn rest _ _ _ _ _ _ hmem2 hrec

/-- A body containing a raising statement makes the sanitizer return some
failure. -/
theorem cleanNodes_raises_error (rt : PyRuntime) (consts : Consts)
    (cfg : DfConfig) (dfs : List DataSource) (n : PyStmt)
    (hn : nodeRaises rt consts cfg dfs n) (body : PyStmtList)
    (sm : SkillsManager) (deps : List Dep) (acc : List PyStmt)
    (hmem : n ∈ stmtsToList body) :
    ∃ e, cleanNodes rt consts cfg dfs body sm deps acc = .error e := by
  cases h : cleanNodes rt consts cfg dfs body sm deps acc with
  | error e => exact ⟨e, rfl⟩
  | ok res =>
      obtain ⟨kept, d2, s2⟩ := res
      exact absurd h (fun h =>
        cleanNodes_raises_no_ok rt consts cfg dfs n hn body sm deps acc kept d2 s2 hmem h)

/-- A sanitizer failure makes execute_code re-raise it before exec is ever
invoked: the trace of exec calls is empty. -/
theorem executeCode_cleanError (rt : PyRuntime) (consts : Consts)
    (cfg : DfConfig) (ctx : ExecCtx) (dfs : List DataSource)
    (st : ManagerState) (code : String) (e : PyErr)
    (h : cleanCode rt consts cfg dfs { ctx.skills with usedSkills := [] }
        (chartedCode rt cfg ctx.promptId (rt.reSubPng code)) = .error e) :
    executeCode rt consts cfg ctx dfs st code =
      ({ st with currentCodeExecuted := rt.reSubPng code }, [], .error e) := by
  simp [executeCode, h]

/-- A sanitizer-loop failure under a successful parse makes clean_code
return it. -/
theorem cleanCode_error_of_nodes (rt : PyRuntime) (consts : Consts)
    (cfg : DfConfig) (dfs : List DataSource) (sm : SkillsManager)
    (code : String) (tree : PyStmtList) (e : PyErr)
    (hp : rt.parse code = .ok tree)
    (h : cleanNodes rt consts cfg dfs tree sm [] [] = .error e) :
    cleanCode rt consts cfg dfs sm code = .error e := by
  simp [cleanCode, hp, h]

/-- The shared import-resolution body rejects a root that is neither pandas
nor allow-listed nor a safe builtin, naming that root. -/
theorem checkImportsCore_bad (consts : Consts) (cfg : DfConfig)
    (module : String) (names : List ImportAlias) (root : String)
    (hroot : rootLibrary module = root)
    (h1 : root ≠ "pandas")
    (h2 : root ∉ consts.libraries)
    (h2b : root ∉ cfg.customWhitelistedDependencies)
    (h3 : root ∉ consts.builtins) :
    checkImports.checkImportsCore consts cfg module names = .error (.badImport root) := by
  simp [checkImports.checkImportsCore, hroot, h1, h2, h2b, h3]

/-- C2: a top-level import whose root module is neither the tabular-data
root library pandas, nor in the library allow-list extended by the
caller-supplied custom entries, nor in the safe-builtins allow-list, makes
the import resolver raise the Disallowed-Import failure naming that root;
any code unit containing such an import fails sanitization, and
execute_code never reaches exec on it (empty execution trace). -/
theorem claim_C2_disallowed_import_rejected (rt : PyRuntime) (consts : Consts)
    (cfg : DfConfig) (dfs : List DataSource) (node : PyStmt)
    (module root : String)
    (hm : importModuleOf node = some module)
    (hroot : rootLibrary module = root)
    (h1 : root ≠ "pandas")
    (h2 : root ∉ consts.libraries)
    (h2b : root ∉ cfg.customWhitelistedDependencies)
    (h3 : root ∉ consts.builtins) :
    checkImports consts cfg node = .error (.badImport root) ∧
    (∀ (body : PyStmtList) (sm : SkillsManager) (deps : List Dep) (acc : List PyStmt),
      node ∈ stmtsToList body →
      ∃ e, cleanNodes rt consts cfg dfs body sm deps acc = .error e) ∧
    (∀ (ctx : ExecCtx) (st : ManagerState) (code : String) (tree : PyStmtList),
      rt.parse (chartedCode rt cfg ctx.promptId (rt.reSubPng code)) = .ok tree →
      node ∈ stmtsToList tree →
      (executeCode rt consts cfg ctx dfs st code).2.1 = [] ∧
      ∃ e, (executeCode rt consts cfg ctx dfs st code).2.2 = .error e) := by
  have hchk : checkImports consts cfg node = .error (.badImport root) := by
    cases node with
    | imprt names =>
        simp only [importModuleOf, Option.some.injEq] at hm
        simp only [checkImports]
        rw [hm]
        exact checkImportsCore_bad consts cfg module names root hroot h1 h2 h2b h3
    | importFrom m names =>
        simp only [importModuleOf, Option.some.injEq] at hm
        simp only [checkImports]
        rw [hm]
        exact checkImportsCore_bad consts cfg module names root hroot h1 h2 h2b h3
    | assign t v n => simp [importModuleOf] at hm
    | exprStmt v => simp [importModuleOf] at hm
    | functionDef n b => simp [importModuleOf] at hm
    | passStmt => simp [importModuleOf] at hm
  have hni : isImportStmt node = true := by
    cases node <;> simp_all [importModuleOf, isImportStmt]
  have hraise : nodeRaises rt consts cfg dfs node :=
    Or.inl ⟨hni, .badImport root, hchk⟩
  refine ⟨hchk, ?_, ?_⟩
  · intro body sm deps acc hmem
    exact cleanNodes_raises_error rt consts cfg dfs node hraise body sm deps acc hmem
  · intro ctx st code tree hp hmem
    obtain ⟨e, he⟩ := cleanNodes_raises_error rt consts cfg dfs node hraise tree
      { ctx.skills with usedSkills := [] } [] [] hmem
    have hcc := cleanCode_error_of_nodes rt consts cfg dfs
      { ctx.skills with usedSkills := [] }
      (chartedCode rt cfg ctx.promptId (rt.reSubPng code)) tree e hp he
    have hex := executeCode_cleanError rt consts cfg ctx dfs st code e hcc
    rw [hex]
    exact ⟨rfl, e, rfl⟩

/-- Witness for C2: an `os` import against the allow-lists
{numpy} and {math}, resolved and then run through execute_code. -/
theorem claim_C2_disallowed_import_rejected_witness :
    checkImports ⟨["numpy"], ["math"]⟩ ⟨false, false, "", [], 3, true⟩
        (.imprt [⟨"os", none⟩]) = .error (.badImport "os") ∧
    (executeCode fixRtC2 ⟨["numpy"], ["math"]⟩ ⟨false, false, "", [], 3, true⟩
        ⟨"p1", ⟨[], []⟩⟩ [] ⟨"", none⟩ "x = 1").2.1 = [] ∧
    ∃ e, (executeCode fixRtC2 ⟨["numpy"], ["math"]⟩ ⟨false, false, "", [], 3, true⟩
        ⟨"p1", ⟨[], []⟩⟩ [] ⟨"", none⟩ "x = 1").2.2 = .error e := by
  have h := claim_C2_disallowed_import_rejected fixRtC2 ⟨["numpy"], ["math"]⟩
    ⟨false, false, "", [], 3, true⟩ [] (.imprt [⟨"os", none⟩]) "os" "os"
    rfl (by decide) (by decide) (by decide) (by decide) (by decide)
  have hrun := h.2.2 ⟨"p1", ⟨[], []⟩⟩ ⟨"", none⟩ "x = 1" fixBodyC2 rfl
    (by simp [fixBodyC2, stmtsToList])
  exact ⟨h.1, hrun.1, hrun.2⟩

/-- C3 is false on the code: an assignment of a string literal to
`sql_query` whose literal references the unauthorized table users is
silently dropped by the export-method substring check (which the
sanitizer runs before the direct-SQL table check), so sanitization
succeeds with the statement removed and execution proceeds, instead of
raising the Malicious-Query failure. -/
theorem claim_C3_counterexample :
    isUnsafe fixStmtC3 = true ∧
    getSqlIrrelevantTables fixRtC3 [⟨"orders", true, 0, ⟨1⟩, []⟩] fixStmtC3 =
      some ["users"] ∧
    cleanNodes fixRtC3 ⟨[], []⟩ ⟨true, false, "", [], 3, true⟩
        [⟨"orders", true, 0, ⟨1⟩, []⟩] (.cons fixStmtC3 .nil) ⟨[], []⟩ [] [] =
      .ok ([], [], ⟨[], []⟩) ∧
    (executeCode fixRtC3 ⟨[], []⟩ ⟨true, false, "", [], 3, true⟩ ⟨"p1", ⟨[], []⟩⟩
        [⟨"orders", true, 0, ⟨1⟩, []⟩] ⟨"", none⟩ "q").2.1.length = 1 :=
  ⟨rfl, rfl, rfl, rfl⟩

/-- C3 amended: in direct-SQL mode, an assignment of a string literal to a
variable matching the reserved SQL-query naming convention whose literal
references tables outside the configured sources is rejected with the
Malicious-Query failure naming those tables, before any execution —
provided the statement is not first removed by one of the silent-drop
checks (data-bindings reassignment, jailbreak tokens, export-method
substrings); a statement matching a silent-drop check is dropped silently
even when its literal references unauthorized tables. -/
theorem claim_C3_malicious_query_explicit (rt : PyRuntime) (consts : Consts)
    (cfg : DfConfig) (dfs : List DataSource) (node : PyStmt)
    (t : String) (ts : List String)
    (hds : cfg.directSql = true)
    (hq : getSqlIrrelevantTables rt dfs node = some (t :: ts))
    (hdrop : (isDfOverwrite node || isJailbreak node || isUnsafe node) = false)
    (hval : validateDirectSql cfg dfs = .ok true) :
    (∀ (rest : PyStmtList) (sm : SkillsManager) (deps : List Dep) (acc : List PyStmt),
      cleanNodes rt consts cfg dfs (.cons node rest) sm deps acc =
        .error (.maliciousQuery (t :: ts))) ∧
    (∀ (body : PyStmtList) (sm : SkillsManager) (deps : List Dep) (acc : List PyStmt),
      node ∈ stmtsToList body →
      ∃ e, cleanNodes rt consts cfg dfs body sm deps acc = .error e) ∧
    (∀ (ctx : ExecCtx) (st : ManagerState) (code : String) (tree : PyStmtList),
      rt.parse (chartedCode rt cfg ctx.promptId (rt.reSubPng code)) = .ok tree →
      node ∈ stmtsToList tree →
      (executeCode rt consts cfg ctx dfs st code).2.1 = [] ∧
      ∃ e, (executeCode rt consts cfg ctx dfs st code).2.2 = .error e) := by
  have hshape : isImportStmt node = false ∧ isExecSqlFuncDef node = false := by
    cases node <;> simp_all [getSqlIrrelevantTables, isImportStmt, isExecSqlFuncDef]
  have hck : checkDirectSqlFuncDefExists cfg dfs node = .ok false := by
    simp [checkDirectSqlFuncDefExists, hval, hshape.2]
  have hraise : nodeRaises rt consts cfg dfs node :=
    Or.inr ⟨hshape.1, hdrop, Or.inr ⟨hck, hds, t, ts, hq⟩⟩
  refine ⟨?_, ?_, ?_⟩
  · intro rest sm deps acc
    simp [cleanNodes, hshape.1, hdrop, hck, hds, hq]
  · intro body sm deps acc hmem
    exact cleanNodes_raises_error rt consts cfg dfs node hraise body sm deps acc hmem
  · intro ctx st code tree hp hmem
    obtain ⟨e, he⟩ := cleanNodes_raises_error rt consts cfg dfs node hraise tree
      { ctx.skills with usedSkills := [] } [] [] hmem
    have hcc := cleanCode_error_of_nodes rt consts cfg dfs
      { ctx.skills with usedSkills := [] }
      (chartedCode rt cfg ctx.promptId (rt.reSubPng code)) tree e hp he
    have hex := executeCode_cleanError rt consts cfg ctx dfs st code e hcc
    rw [hex]
    exact ⟨rfl, e, rfl⟩

/-- Witness for the amended C3: the unauthorized query without any
drop-check match is rejected explicitly with the tables named, and the
unit is never executed. -/
theorem claim_C3_malicious_query_explicit_witness :
    cleanNodes fixRtC3b ⟨[], []⟩ ⟨true, false, "", [], 3, true⟩
        [⟨"orders", true, 0, ⟨1⟩, []⟩] (.cons fixStmtC3b .nil) ⟨[], []⟩ [] [] =
      .error (.maliciousQuery ["users"]) ∧
    (executeCode fixRtC3b ⟨[], []⟩ ⟨true, false, "", [], 3, true⟩ ⟨"p1", ⟨[], []⟩⟩
        [⟨"orders", true, 0, ⟨1⟩, []⟩] ⟨"", none⟩ "q").2.1 = [] ∧
    ∃ e, (executeCode fixRtC3b ⟨[], []⟩ ⟨true, false, "", [], 3, true⟩ ⟨"p1", ⟨[], []⟩⟩
        [⟨"orders", true, 0, ⟨1⟩, []⟩] ⟨"", none⟩ "q").2.2 = .error e := by
  have h := claim_C3_malicious_query_explicit fixRtC3b ⟨[], []⟩
    ⟨true, false, "", [], 3, true⟩ [⟨"orders", true, 0, ⟨1⟩, []⟩] fixStmtC3b
    "users" [] rfl rfl (by decide) rfl
  have hrun := h.2.2 ⟨"p1", ⟨[], []⟩⟩ ⟨"", none⟩ "q" (.cons fixStmtC3b .nil) rfl
    (by simp [stmtsToList])
  exact ⟨h.1 .nil ⟨[], []⟩ [] [], hrun.1, hrun.2⟩

/-- C4: a top-level statement whose serialized form contains a denylisted
export-method token is classified unsafe and never appears in the
sanitizer's kept output, while every statement passing all keep conditions
is preserved in the output. -/
theorem claim_C4_export_statement_removed (rt : PyRuntime) (consts : Consts)
    (cfg : DfConfig) (dfs : List DataSource) (s : PyStmt) (m : String)
    (hm : m ∈ unsafeMethods)
    (hsub : substrB m (srcStmt s) = true) :
    isUnsafe s = true ∧
    ∀ (body : PyStmtList) (sm : SkillsManager) (deps : List Dep)
      (kept : List PyStmt) (d2 : List Dep) (s2 : SkillsManager),
      cleanNodes rt consts cfg dfs body sm deps [] = .ok (kept, d2, s2) →
      s ∉ kept ∧
      ∀ x ∈ stmtsToList body, passesAll rt consts cfg dfs x → x ∈ kept := by
  have hu : isUnsafe s = true := by
    unfold isUnsafe
    exact List.any_eq_true.mpr ⟨m, hm, hsub⟩
  refine ⟨hu, ?_⟩
  intro body sm deps kept d2 s2 h
  constructor
  · exact cleanNodes_dropped_not_kept rt consts cfg dfs s (Or.inr (by simp [hu]))
      body sm deps [] kept d2 s2 h (List.not_mem_nil s)
  · intro x hx hpx
    exact cleanNodes_passes_kept rt consts cfg dfs x hpx body sm deps [] kept d2 s2 h hx

/-- Witness for C4: a `dfs[0].to_csv("out.csv")` call beside a valid
result assignment; the export call is dropped silently and the valid
statement survives. -/
theorem claim_C4_export_statement_removed_witness :
    isUnsafe fixStmtC4 = true ∧
    cleanNodes fixRtC4 ⟨[], []⟩ ⟨false, false, "", [], 3, true⟩ []
        (.cons fixStmtC4 (.cons fixSafeC4 .nil)) ⟨[], []⟩ [] [] =
      .ok ([fixSafeC4], [], ⟨[], []⟩) ∧
    fixStmtC4 ∉ [fixSafeC4] ∧ fixSafeC4 ∈ [fixSafeC4] := by
  have h := claim_C4_export_statement_removed fixRtC4 ⟨[], []⟩
    ⟨false, false, "", [], 3, true⟩ [] fixStmtC4 ".to_csv"
    (by decide) (by decide)
  have hclean : cleanNodes fixRtC4 ⟨[], []⟩ ⟨false, false, "", [], 3, true⟩ []
      (.cons fixStmtC4 (.cons fixSafeC4 .nil)) ⟨[], []⟩ [] [] =
      .ok ([fixSafeC4], [], ⟨[], []⟩) := rfl
  obtain ⟨hnot, hpres⟩ := h.2 _ _ _ _ _ _ hclean
  refine ⟨h.1, hclean, hnot, ?_⟩
  exact hpres fixSafeC4 (by simp [stmtsToList])
    ⟨rfl, by decide, rfl, Or.inl rfl⟩

/-- C7 is false on the code: with direct-SQL mode active and heterogeneous
sources (the second is not an SQL connector), a unit consisting only of a
pandas import sanitizes successfully without the homogeneity validation
ever running, the raw-SQL callable is bound into the environment of the
first source despite the mismatch, and the unit is executed — the failure
eventually raised is No-Result-Found, not Invalid-Configuration. -/
theorem claim_C7_counterexample :
    validateDirectSql ⟨true, false, "", [], 3, true⟩ fixDfsC7 =
      .error (.invalidConfig
        "Direct requires all SQLConnector and they belong to same datasource and have same credentials") ∧
    (executeCode fixRtC7 ⟨[], []⟩ ⟨true, false, "", [], 3, true⟩ ⟨"p1", ⟨[], []⟩⟩
        fixDfsC7 ⟨"", none⟩ "q").2.2 = .error (.noResultFound "No result returned") ∧
    (executeCode fixRtC7 ⟨[], []⟩ ⟨true, false, "", [], 3, true⟩ ⟨"p1", ⟨[], []⟩⟩
        fixDfsC7 ⟨"", none⟩ "q").2.1.length = 1 ∧
    ((executeCode fixRtC7 ⟨[], []⟩ ⟨true, false, "", [], 3, true⟩ ⟨"p1", ⟨[], []⟩⟩
        fixDfsC7 ⟨"", none⟩ "q").2.1.head?.map
          (fun p => envGet p.2 "execute_sql_query")) =
      some (some (.vcallable "execute_direct_sql_query@users")) :=
  ⟨rfl, rfl, rfl, rfl⟩

/-- C7 amended: with direct-SQL mode active and heterogeneous or
credential-mismatched sources, the homogeneity validation raises the fatal
Invalid-Configuration failure during sanitization, once a top-level
statement survives the silent-drop checks; any unit whose first statement
is such an ordinary statement is rejected before execution (empty exec
trace).  When no statement reaches the check, no validation occurs. -/
theorem claim_C7_direct_sql_validation (rt : PyRuntime) (consts : Consts)
    (cfg : DfConfig) (dfs : List DataSource) (d0 : DataSource)
    (dRest : List DataSource)
    (hds : cfg.directSql = true)
    (hdfs : dfs = d0 :: dRest)
    (hall : dfs.all (fun d => d.isSqlConnector && dsEquals d d0) = false) :
    validateDirectSql cfg dfs =
      .error (.invalidConfig
        "Direct requires all SQLConnector and they belong to same datasource and have same credentials") ∧
    (∀ (node : PyStmt) (rest : PyStmtList) (sm : SkillsManager)
        (deps : List Dep) (acc : List PyStmt),
      isImportStmt node = false →
      (isDfOverwrite node || isJailbreak node || isUnsafe node) = false →
      cleanNodes rt consts cfg dfs (.cons node rest) sm deps acc =
        .error (.invalidConfig
          "Direct requires all SQLConnector and they belong to same datasource and have same credentials")) ∧
    (∀ (ctx : ExecCtx) (st : ManagerState) (code : String) (node : PyStmt)
        (rest : PyStmtList),
      rt.parse (chartedCode rt cfg ctx.promptId (rt.reSubPng code)) =
        .ok (.cons node rest) →
      isImportStmt node = false →
      (isDfOverwrite node || isJailbreak node || isUnsafe node) = false →
      (executeCode rt consts cfg ctx dfs st code).2.1 = [] ∧
      (executeCode rt consts cfg ctx dfs st code).2.2 =
        .error (.invalidConfig
          "Direct requires all SQLConnector and they belong to same datasource and have same credentials")) := by
  subst hdfs
  have hv : validateDirectSql cfg (d0 :: dRest) =
      .error (.invalidConfig
        "Direct requires all SQLConnector and they belong to same datasource and have same credentials") := by
    simp [validateDirectSql, hds, hall]
  have hstep : ∀ (node : PyStmt) (rest : PyStmtList) (sm : SkillsManager)
      (deps : List Dep) (acc : List PyStmt),
      isImportStmt node = false →
      (isDfOverwrite node || isJailbreak node || isUnsafe node) = false →
      cleanNodes rt consts cfg (d0 :: dRest) (.cons node rest) sm deps acc =
        .error (.invalidConfig
          "Direct requires all SQLConnector and they belong to same datasource and have same credentials") := by
    intro node rest sm deps acc hni hdrop
    simp [cleanNodes, hni, hdrop, checkDirectSqlFuncDefExists, hv]
  refine ⟨hv, hstep, ?_⟩
  intro ctx st code node rest hp hni hdrop
  have hcc := cleanCode_error_of_nodes rt consts cfg (d0 :: dRest)
    { ctx.skills with usedSkills := [] }
    (chartedCode rt cfg ctx.promptId (rt.reSubPng code)) (.cons node rest) _ hp
    (hstep node rest { ctx.skills with usedSkills := [] } [] [] hni hdrop)
  have hex := executeCode_cleanError rt consts cfg ctx (d0 :: dRest) st code _ hcc
  rw [hex]
  exact ⟨rfl, rfl⟩

/-- Witness for the amended C7: mismatched sources with an ordinary
statement unit are rejected with Invalid-Configuration before any
execution. -/
theorem claim_C7_direct_sql_validation_witness :
    validateDirectSql ⟨true, false, "", [], 3, true⟩ fixDfsC7 =
      .error (.invalidConfig
        "Direct requires all SQLConnector and they belong to same datasource and have same credentials") ∧
    (executeCode fixRtC7b ⟨[], []⟩ ⟨true, false, "", [], 3, true⟩ ⟨"p1", ⟨[], []⟩⟩
        fixDfsC7 ⟨"", none⟩ "q").2.1 = [] ∧
    (executeCode fixRtC7b ⟨[], []⟩ ⟨true, false, "", [], 3, true⟩ ⟨"p1", ⟨[], []⟩⟩
        fixDfsC7 ⟨"", none⟩ "q").2.2 =
      .error (.invalidConfig
        "Direct requires all SQLConnector and they belong to same datasource and have same credentials") := by
  have h := claim_C7_direct_sql_validation fixRtC7b ⟨[], []⟩
    ⟨true, false, "", [], 3, true⟩ fixDfsC7 ⟨"users", true, 1, ⟨1⟩, []⟩
    [⟨"files", false, 2, ⟨2⟩, []⟩] rfl rfl (by decide)
  have hrun := h.2.2 ⟨"p1", ⟨[], []⟩⟩ ⟨"", none⟩ "q" fixSafeC7 .nil rfl
    (by decide) (by decide)
  exact ⟨h.1, hrun.1, hrun.2⟩

/-- The exec stage always records exactly one exec invocation. -/
theorem execAndRead_trace (rt : PyRuntime) (st2 : ManagerState)
    (codeToRun : String) (env2 : PyEnv) :
    (execAndRead rt st2 codeToRun env2).2.1 = [(codeToRun, env2)] := by
  unfold execAndRead
  repeat' split
  all_goals rfl

/-- Every execute_code run either exits before exec (empty trace) or ends
in the single exec stage. -/
theorem executeCode_cases (rt : PyRuntime) (consts : Consts) (cfg : DfConfig)
    (ctx : ExecCtx) (dfs : List DataSource) (st : ManagerState) (code : String) :
    (executeCode rt consts cfg ctx dfs st code).2.1 = [] ∨
    ∃ st2 ctr env2,
      executeCode rt consts cfg ctx dfs st code = execAndRead rt st2 ctr env2 := by
  simp only [executeCode]
  repeat' split
  all_goals first
    | (left; rfl)
    | (right; exact ⟨_, _, _, rfl⟩)

/-- C6 amended: the executor performs no missing-import self-heal: exec is
invoked at most once per execute_code call, and when exec raises, the
failure escalates to the caller unchanged, with no import added and no
re-run. -/
theorem claim_C6_runtime_failures_escalate_directly :
    (∀ (rt : PyRuntime) (consts : Consts) (cfg : DfConfig) (ctx : ExecCtx)
        (dfs : List DataSource) (st : ManagerState) (code : String),
      (executeCode rt consts cfg ctx dfs st code).2.1.length ≤ 1) ∧
    (∀ (rt : PyRuntime) (consts : Consts) (cfg : DfConfig) (ctx : ExecCtx)
        (dfs : List DataSource) (st : ManagerState) (code : String) (e : PyErr),
      (∀ c env, rt.execPy c env = .error e) →
      ∀ p, (executeCode rt consts cfg ctx dfs st code).2.1 = [p] →
        (executeCode rt consts cfg ctx dfs st code).2.2 = .error e) := by
  constructor
  · intro rt consts cfg ctx dfs st code
    rcases executeCode_cases rt consts cfg ctx dfs st code with h | ⟨st2, ctr, env2, h⟩
    · rw [h]; simp
    · rw [h, execAndRead_trace]; simp
  · intro rt consts cfg ctx dfs st code e hE p hp
    rcases executeCode_cases rt consts cfg ctx dfs st code with h | ⟨st2, ctr, env2, h⟩
    · rw [h] at hp; cases hp
    · rw [h]
      simp [execAndRead, hE]

/-- Witness for the amended C6: with a source allow-list containing the
unresolved alias np and an exec that raises the NameError for it, the
executor escalates the NameError after exactly one exec invocation. -/
theorem claim_C6_runtime_failures_escalate_directly_witness :
    (executeCode fixRtC6 ⟨["np"], ["math"]⟩ ⟨false, false, "", [], 3, true⟩
        ⟨"p1", ⟨[], []⟩⟩ fixDfsC6 ⟨"", none⟩ "result = np.mean(dfs[0])").2.1.length ≤ 1 ∧
    ∀ p, (executeCode fixRtC6 ⟨["np"], ["math"]⟩ ⟨false, false, "", [], 3, true⟩
        ⟨"p1", ⟨[], []⟩⟩ fixDfsC6 ⟨"", none⟩ "result = np.mean(dfs[0])").2.1 = [p] →
      (executeCode fixRtC6 ⟨["np"], ["math"]⟩ ⟨false, false, "", [], 3, true⟩
        ⟨"p1", ⟨[], []⟩⟩ fixDfsC6 ⟨"", none⟩ "result = np.mean(dfs[0])").2.2 =
        .error (.nameError "name np is not defined") :=
  ⟨claim_C6_runtime_failures_escalate_directly.1 fixRtC6 ⟨["np"], ["math"]⟩
      ⟨false, false, "", [], 3, true⟩ ⟨"p1", ⟨[], []⟩⟩ fixDfsC6 ⟨"", none⟩
      "result = np.mean(dfs[0])",
   claim_C6_runtime_failures_escalate_directly.2 fixRtC6 ⟨["np"], ["math"]⟩
      ⟨false, false, "", [], 3, true⟩ ⟨"p1", ⟨[], []⟩⟩ fixDfsC6 ⟨"", none⟩
      "result = np.mean(dfs[0])" (.nameError "name np is not defined")
      (fun _ _ => rfl)⟩

/-- C6 is false on the code: an execution raising a NameError naming the
unresolved symbol np, with np present in the library allow-list, escalates
directly out of execute_code after a single exec invocation — no library
is imported into the context and no re-run happens. -/
theorem claim_C6_counterexample :
    ("np" ∈ (Consts.libraries ⟨["np"], ["math"]⟩)) ∧
    (executeCode fixRtC6 ⟨["np"], ["math"]⟩ ⟨false, false, "", [], 3, true⟩
        ⟨"p1", ⟨[], []⟩⟩ fixDfsC6 ⟨"", none⟩ "result = np.mean(dfs[0])").2.2 =
      .error (.nameError "name np is not defined") ∧
    (executeCode fixRtC6 ⟨["np"], ["math"]⟩ ⟨false, false, "", [], 3, true⟩
        ⟨"p1", ⟨[], []⟩⟩ fixDfsC6 ⟨"", none⟩ "result = np.mean(dfs[0])").2.1.length = 1 :=
  ⟨by decide, rfl, rfl⟩

/-- Indexing an enumerated list. -/
theorem enumFrom_get {α : Type} :
    ∀ (l : List α) (k i : Nat),
      (enumFrom k l)[i]? = (l[i]?).map (fun a => (k + i, a))
  | [], k, i => by simp [enumFrom]
  | a :: rest, k, 0 => by simp [enumFrom]
  | a :: rest, k, i + 1 => by
      simp only [enumFrom, List.getElem?_cons_succ]
      rw [enumFrom_get rest (k + 1) i]
      cases rest[i]? with
      | none => simp
      | some b => simp; omega

/-- Every index recorded by the materialization loop is at least the
running start index. -/
theorem getOriginalsAux_trace_ge (rt : PyRuntime) (c : String) :
    ∀ (slots : List (Option DataSource)) (k x : Nat),
      x ∈ (getOriginalsAux rt c slots k).2 → k ≤ x
  | [], k, x, hx => by simp [getOriginalsAux] at hx
  | none :: rest, k, x, hx => by
      simp only [getOriginalsAux] at hx
      have := getOriginalsAux_trace_ge rt c rest (k + 1) x hx
      omega
  | some df :: rest, k, x, hx => by
      simp only [getOriginalsAux] at hx
      cases hef : extractFilters rt c with
      | error e => rw [hef] at hx; simp at hx
      | ok cmps =>
          rw [hef] at hx
          simp only [List.mem_cons] at hx
          rcases hx with hx | hx
          · omega
          · have := getOriginalsAux_trace_ge rt c rest (k + 1) x hx
            omega

/-- A None slot of the materialization loop is never materialized and stays
an absent placeholder in the produced binding list. -/
theorem getOriginalsAux_none_slot (rt : PyRuntime) (c : String) :
    ∀ (slots : List (Option DataSource)) (k i : Nat),
      slots[i]? = some none →
      (k + i) ∉ (getOriginalsAux rt c slots k).2 ∧
      ∀ ts, (getOriginalsAux rt c slots k).1 = .ok ts → ts[i]? = some none
  | [], k, i, hs => by simp at hs
  | none :: rest, k, 0, hs => by
      constructor
      · intro hx
        simp only [getOriginalsAux] at hx
        have := getOriginalsAux_trace_ge rt c rest (k + 1) (k + 0) hx
        omega
      · intro ts hts
        simp only [getOriginalsAux] at hts
        cases hr : (getOriginalsAux rt c rest (k + 1)).1 with
        | error e => rw [hr] at hts; simp [Except.map] at hts
        | ok ts2 =>
            rw [hr] at hts
            simp only [Except.map, Except.ok.injEq] at hts
            subst hts
            simp
  | none :: rest, k, i + 1, hs => by
      simp only [List.getElem?_cons_succ] at hs
      obtain ⟨htr, hres⟩ := getOriginalsAux_none_slot rt c rest (k + 1) i hs
      constructor
      · intro hx
        simp only [getOriginalsAux] at hx
        exact htr (by have : k + (i + 1) = k + 1 + i := by omega
                      rw [this] at hx
                      exact hx)
      · intro ts hts
        simp only [getOriginalsAux] at hts
        cases hr : (getOriginalsAux rt c rest (k + 1)).1 with
        | error e => rw [hr] at hts; simp [Except.map] at hts
        | ok ts2 =>
            rw [hr] at hts
            simp only [Except.map, Except.ok.injEq] at hts
            subst hts
            simpa using hres ts2 hr
  | some df :: rest, k, 0, hs => by simp at hs
  | some df :: rest, k, i + 1, hs => by
      simp only [List.getElem?_cons_succ] at hs
      obtain ⟨htr, hres⟩ := getOriginalsAux_none_slot rt c rest (k + 1) i hs
      constructor
      · intro hx
        simp only [getOriginalsAux] at hx
        cases hef : extractFilters rt c with
        | error e => rw [hef] at hx; simp at hx
        | ok cmps =>
            rw [hef] at hx
            simp only [List.mem_cons] at hx
            rcases hx with hx | hx
            · omega
            · exact htr (by have : k + (i + 1) = k + 1 + i := by omega
                            rw [this] at hx
                            exact hx)
      · intro ts hts
        simp only [getOriginalsAux] at hts
        cases hef : extractFilters rt c with
        | error e => rw [hef] at hts; simp at hts
        | ok cmps =>
            rw [hef] at hts
            cases hr : (getOriginalsAux rt c rest (k + 1)).1 with
            | error e => rw [hr] at hts; simp [Except.map] at hts
            | ok ts2 =>
                rw [hr] at hts
                simp only [Except.map, Except.ok.injEq] at hts
                subst hts
                simpa using hres ts2 hr

/-- C8: a source index referenced neither by the iterate-over-all-sources
idiom, nor the concatenate-all-sources idiom, nor its positional reference
text, is not selected by the dependency selector, is never materialized by
the binding loop, and its slot in the produced data bindings is the absent
placeholder; when either all-sources idiom is present every source is
selected. -/
theorem claim_C8_unreferenced_source_not_materialized (rt : PyRuntime)
    (st : ManagerState) (dfs : List DataSource) (code : String) (i : Nat)
    (hi : i < dfs.length)
    (h1 : substrB "for df in dfs" code = false)
    (h2 : substrB "pd.concat(dfs)" code = false)
    (h3 : substrB ("dfs[" ++ toString i ++ "]") code = false) :
    (requiredDfs code dfs)[i]? = some none ∧
    i ∉ (getOriginals rt st (requiredDfs code dfs)).2 ∧
    (∀ ts, (getOriginals rt st (requiredDfs code dfs)).1 = .ok ts →
      ts[i]? = some none) ∧
    (∀ code2, substrB "for df in dfs" code2 = true ∨
        substrB "pd.concat(dfs)" code2 = true →
      requiredDfs code2 dfs = dfs.map some) := by
  have hslot : (requiredDfs code dfs)[i]? = some none := by
    have hd : dfs[i]? = some dfs[i] := List.getElem?_eq_getElem hi
    simp [requiredDfs, h1, h2, List.getElem?_map, enumFrom_get, hd, h3]
  have hmain := getOriginalsAux_none_slot rt st.currentCodeExecuted
    (requiredDfs code dfs) 0 i hslot
  refine ⟨hslot, ?_, ?_, ?_⟩
  · have := hmain.1
    simpa [getOriginals] using this
  · intro ts hts
    exact hmain.2 ts hts
  · intro code2 hidiom
    rcases hidiom with h | h <;> simp [requiredDfs, h]

/-- Witness for C8: three sources, code referencing only index 0; index 1
is unselected, unmaterialized and absent, while the for-idiom selects all
three. -/
theorem claim_C8_unreferenced_source_not_materialized_witness :
    (requiredDfs "result = dfs[0].mean()" fixDfsC8)[1]? = some none ∧
    1 ∉ (getOriginals fixRtC8 ⟨"", none⟩
      (requiredDfs "result = dfs[0].mean()" fixDfsC8)).2 ∧
    (∀ ts, (getOriginals fixRtC8 ⟨"", none⟩
        (requiredDfs "result = dfs[0].mean()" fixDfsC8)).1 = .ok ts →
      ts[1]? = some none) ∧
    requiredDfs "for df in dfs: result = 1" fixDfsC8 = fixDfsC8.map some := by
  have h := claim_C8_unreferenced_source_not_materialized fixRtC8 ⟨"", none⟩
    fixDfsC8 "result = dfs[0].mean()" 1 (by decide) (by decide) (by decide) (by decide)
  exact ⟨h.1, h.2.1, h.2.2.1,
    h.2.2.2 "for df in dfs: result = 1" (Or.inl (by decide))⟩

/-- C9: filter extraction is pure: it leaves the manager state untouched,
two runs on the same text (the second from the state produced by the
first) give identical predicate dictionaries, the result is independent of
the manager state and of every runtime service except the parser, and on
unparseable input it propagates the parser's Syntax failure rather than
returning any predicate set. -/
theorem claim_C9_filter_extraction_pure (rt : PyRuntime) (st : ManagerState)
    (code : String) :
    (extractFiltersSt rt st code).1 = st ∧
    (extractFiltersSt rt (extractFiltersSt rt st code).1 code).2 =
      (extractFiltersSt rt st code).2 ∧
    (∀ st2, (extractFiltersSt rt st2 code).2 = (extractFiltersSt rt st code).2) ∧
    (∀ rt2 : PyRuntime, rt2.parse code = rt.parse code →
      (extractFiltersSt rt2 st code).2 = (extractFiltersSt rt st code).2) ∧
    (∀ m, rt.parse code = .error (.syntaxError m) →
      (extractFiltersSt rt st code).2 = .error (.syntaxError m) ∧
      ∀ res, (extractFiltersSt rt st code).2 ≠ .ok res) := by
  refine ⟨rfl, rfl, fun st2 => rfl, ?_, ?_⟩
  · intro rt2 hpp
    simp [extractFiltersSt, extractFilters, hpp]
  · intro m hp
    constructor
    · simp [extractFiltersSt, extractFilters, hp]
    · intro res hok
      simp [extractFiltersSt, extractFilters, hp] at hok

/-- Witness for C9: a parser rejecting the text makes extraction return the
Syntax failure, never an empty predicate set, with the state unchanged. -/
theorem claim_C9_filter_extraction_pure_witness :
    (extractFiltersSt fixRtC9 ⟨"", none⟩ "(((").1 = (⟨"", none⟩ : ManagerState) ∧
    (extractFiltersSt fixRtC9 ⟨"", none⟩ "(((").2 =
      .error (.syntaxError "invalid syntax") ∧
    ∀ res, (extractFiltersSt fixRtC9 ⟨"", none⟩ "(((").2 ≠ .ok res := by
  have h := claim_C9_filter_extraction_pure fixRtC9 ⟨"", none⟩ "((("
  exact ⟨h.1, (h.2.2.2.2 "invalid syntax" rfl).1, (h.2.2.2.2 "invalid syntax" rfl).2⟩
